import Mathlib

/-!
Shallow embedding of the `real_estate` business layer (validators, unit
state-machine service, user service) of the back-planok repository,
together with proofs of the specification claims about it.

Python values flowing through the validators are modelled by the
inductive type `Val`; the input mapping handed to a validator is an
association list of string keys to `Val`.  Python semantics that matter
here (truthiness, `len`, `re.match` on the concrete patterns of the
source, `date.fromisoformat`, ordered comparison) are modelled
explicitly; operations that raise `TypeError` in Python are embedded in
`Except String`.
-/

namespace PlanOK

/-- A Python value as it can appear in the validator input mapping:
`None`, a string, an integer, or a `datetime.date`. -/
inductive Val where
  | none
  | str (s : String)
  | int (n : Int)
  | date (y m d : Nat)
deriving DecidableEq, Repr

/-- The raw input mapping (string keys to values) a validator is
constructed with. -/
abbrev Data := List (String × Val)

/-- `data.get(k)` of a Python dict: the first value bound to `k`,
`None` when the key is absent. -/
def pyGet (d : Data) (k : String) : Val :=
  match d.find? (fun p => p.1 == k) with
  | Option.none => .none
  | Option.some p => p.2

/-- Python truthiness of a `Val`: `None` is falsy, a string is truthy
iff nonempty, an integer is truthy iff nonzero, a date is truthy. -/
def pyTruthy : Val → Bool
  | .none => false
  | .str s => !s.isEmpty
  | .int n => n != 0
  | .date _ _ _ => true

/-- Python `len(v)`: defined on strings, a `TypeError` otherwise. -/
def pyLen : Val → Except String Nat
  | .str s => .ok s.length
  | _ => .error "TypeError: object has no len"

/-- Python `v == s` against a string literal: values of a different
type compare unequal without raising. -/
def valEqStr : Val → String → Bool
  | .str s, t => s == t
  | _, _ => false

/-- Python `v in [s1, ..., sn]` over a list of string literals. -/
def valInStrs (v : Val) (l : List String) : Bool :=
  l.any (fun s => valEqStr v s)

/-- ASCII decimal digit (models the `\d` / `[0-9]` character classes of
the source patterns over the inputs of interest). -/
def isDig (c : Char) : Bool := decide ('0' ≤ c) && decide (c ≤ '9')

/-- ASCII letter (models `[a-zA-Z]`). -/
def isAlpha (c : Char) : Bool :=
  (decide ('a' ≤ c) && decide (c ≤ 'z')) || (decide ('A' ≤ c) && decide (c ≤ 'Z'))

/-- `re.match(p, v)` where `p` expects a string subject: a `TypeError`
unless `v` is a string, in which case the boolean result of the given
string matcher. -/
def reMatch (core : String → Bool) : Val → Except String Bool
  | .str s => .ok (core s)
  | _ => .error "TypeError: expected string or bytes-like object"

/-- Lift a fully-anchored matcher to the semantics of a Python pattern
ending in `$`: `$` also matches just before a single newline at the end
of the subject, so `re.match(r'^...$', s)` succeeds on `core ++ "\n"`
as well as on `core`. -/
def pyDollar (core : String → Bool) (s : String) : Bool :=
  core s || ((s.toList.getLast? == Option.some '\n') && core (String.mk s.toList.dropLast))

/-- The body of the RUT pattern `\d{1,8}-[\dkK]` matched against the
whole subject: 1 to 8 digits, a dash, and one check character. -/
def rutCore (s : String) : Bool :=
  match s.toList.reverse with
  | c :: '-' :: ds =>
      (isDig c || c == 'k' || c == 'K') && !ds.isEmpty &&
        decide (ds.length ≤ 8) && ds.all isDig
  | _ => false

/-- `re.match(r'^\d{1,8}-[\dkK]$', s)` as a boolean: the core pattern
with Python's `$` (optional single trailing newline) semantics. -/
def rutPyMatch (s : String) : Bool := pyDollar rutCore s

/-- The RUT pattern `\d{1,8}-[\dkK]` anchored at BOTH ends of the
subject, as the specification words it (no trailing-newline allowance).
Stated from the spec for comparison with `rutPyMatch`. -/
def rutAnchoredMatch (s : String) : Bool := rutCore s

/-- The body of the email pattern
`[a-zA-Z0-9._%+-]+@[a-zA-Z0-9.-]+\.[a-zA-Z]{2,}` against the whole
subject.  Neither character class before the final alphabetic run
admits `@`, so the split is at the unique `@` and the last `.` after
it. -/
def emailCore (s : String) : Bool :=
  let cs := s.toList
  let localChars := fun c =>
    isAlpha c || isDig c || c == '.' || c == '_' || c == '%' || c == '+' || c == '-'
  let domChars := fun c => isAlpha c || isDig c || c == '.' || c == '-'
  match cs.splitOnP (· == '@') with
  | [localPart, domPart] =>
      match (domPart.reverse.splitOnP (· == '.')).head? with
      | Option.some tldRev =>
          let tld := tldRev.reverse
          let dom := domPart.take (domPart.length - tld.length - 1)
          !localPart.isEmpty && localPart.all localChars &&
          !dom.isEmpty && dom.all domChars &&
          decide (domPart.length > tld.length) &&
          decide (tld.length ≥ 2) && tld.all isAlpha
      | Option.none => false
  | _ => false

/-- `re.match(r'^[a-zA-Z0-9._%+-]+@[a-zA-Z0-9.-]+\.[a-zA-Z]{2,}$', s)`. -/
def emailPyMatch (s : String) : Bool := pyDollar emailCore s

/-- The body of the phone pattern `(\+\d{1,3})?[0-9]{8,12}` against the
whole subject: an optional `+`-prefixed country code of 1–3 digits
followed by 8–12 digits. -/
def phoneCore (s : String) : Bool :=
  match s.toList with
  | '+' :: rest => rest.all isDig && decide (9 ≤ rest.length) && decide (rest.length ≤ 15)
  | l => l.all isDig && decide (8 ≤ l.length) && decide (l.length ≤ 12)

/-- `re.match(r'^(\+\d{1,3})?[0-9]{8,12}$', s)`. -/
def phonePyMatch (s : String) : Bool := pyDollar phoneCore s

/-- Python `c.isupper()` restricted to the ASCII range of our inputs. -/
def pyIsUpper (c : Char) : Bool := decide ('A' ≤ c) && decide (c ≤ 'Z')

/-- Python `c.islower()` restricted to the ASCII range of our inputs. -/
def pyIsLower (c : Char) : Bool := decide ('a' ≤ c) && decide (c ≤ 'z')

/-! ### Dates: `datetime.date.fromisoformat` and ordered comparison -/

/-- Leap-year rule used by `datetime.date`. -/
def isLeap (y : Nat) : Bool := y % 4 == 0 && (y % 100 != 0 || y % 400 == 0)

/-- Number of days of month `m` of year `y` (Gregorian calendar). -/
def daysInMonth (y m : Nat) : Nat :=
  if m == 2 then (if isLeap y then 29 else 28)
  else if m == 4 || m == 6 || m == 9 || m == 11 then 30
  else 31

/-- Numeric value of a list of ASCII digit characters. -/
def digitsToNat (l : List Char) : Nat :=
  l.foldl (fun acc c => 10 * acc + (c.toNat - '0'.toNat)) 0

/-- `datetime.date.fromisoformat` on its `YYYY-MM-DD` form: exactly ten
characters, dashes at positions 4 and 7, digits elsewhere, and a valid
Gregorian date with year ≥ 1; `none` models the `ValueError` raised on
any other string. -/
def fromisoformat (s : String) : Option (Nat × Nat × Nat) :=
  match s.toList with
  | [y1, y2, y3, y4, '-', m1, m2, '-', d1, d2] =>
      if [y1, y2, y3, y4, m1, m2, d1, d2].all isDig then
        let y := digitsToNat [y1, y2, y3, y4]
        let m := digitsToNat [m1, m2]
        let d := digitsToNat [d1, d2]
        if 1 ≤ y ∧ 1 ≤ m ∧ m ≤ 12 ∧ 1 ≤ d ∧ d ≤ daysInMonth y m then
          Option.some (y, m, d)
        else Option.none
      else Option.none
  | _ => Option.none

/-- Strict order on calendar dates: lexicographic on (year, month, day),
as `datetime.date.__gt__` computes it. -/
def dateLt (a b : Nat × Nat × Nat) : Bool :=
  a.1 < b.1 || (a.1 == b.1 && (a.2.1 < b.2.1 || (a.2.1 == b.2.1 && a.2.2 < b.2.2)))

/-- Python `a > b` on the values that can reach the date comparison of
the project validator: defined between two dates, two integers or two
strings, a `TypeError` between anything else (in particular between a
date and a non-date). -/
def pyGt : Val → Val → Except String Bool
  | .date y1 m1 d1, .date y2 m2 d2 => .ok (dateLt (y2, m2, d2) (y1, m1, d1))
  | .int a, .int b => .ok (decide (b < a))
  | .str a, .str b => .ok (decide (b < a))
  | _, _ => .error "TypeError: unsupported comparison"

/-! ### Validator error lists

`ValidationError` and the error-list plumbing of `BaseValidator`.
Each per-field check of the source is embedded as a function from the
input mapping to `Except String (List ValidationError)`: the `.error`
case models a Python exception escaping the check, the `.ok` case the
list of errors the check `add_error`s. -/

/-- A single validation error: a field name and a message
(`base_validator.ValidationError`). -/
structure ValidationError where
  field : String
  message : String
deriving DecidableEq, Repr

/-- Sequencing of two checks run one after the other on the shared
error list: errors accumulate in order; an exception in the first check
aborts before the second runs. -/
def seqE (a b : Except String (List ValidationError)) :
    Except String (List ValidationError) :=
  match a with
  | .error e => .error e
  | .ok l =>
      match b with
      | .error e => .error e
      | .ok l' => .ok (l ++ l')

/-! ### `UsuarioValidator` field checks -/

/-- `UsuarioValidator._validate_rut`. -/
def validateRut (d : Data) : Except String (List ValidationError) :=
  let rut := pyGet d "rut"
  if !pyTruthy rut then
    .ok [⟨"rut", "El RUT es obligatorio"⟩]
  else
    match reMatch rutPyMatch rut with
    | .error e => .error e
    | .ok true => .ok []
    | .ok false => .ok [⟨"rut", "El formato del RUT no es válido (debe ser 12345678-9)"⟩]

/-- `UsuarioValidator._validate_email`. -/
def validateEmail (d : Data) : Except String (List ValidationError) :=
  let email := pyGet d "email"
  if !pyTruthy email then
    .ok [⟨"email", "El email es obligatorio"⟩]
  else
    match reMatch emailPyMatch email with
    | .error e => .error e
    | .ok true => .ok []
    | .ok false => .ok [⟨"email", "El formato del email no es válido"⟩]

/-- `UsuarioValidator._validate_nombres`. -/
def validateNombres (d : Data) : Except String (List ValidationError) :=
  let firstName := pyGet d "first_name"
  let lastName := pyGet d "last_name"
  let checkName := fun (v : Val) (f : String) (req short : String) =>
    if !pyTruthy v then Except.ok [(⟨f, req⟩ : ValidationError)]
    else
      match pyLen v with
      | .error e => .error e
      | .ok n => .ok (if n < 2 then [(⟨f, short⟩ : ValidationError)] else [])
  seqE
    (checkName firstName "first_name" "El nombre es obligatorio"
      "El nombre debe tener al menos 2 caracteres")
    (checkName lastName "last_name" "El apellido es obligatorio"
      "El apellido debe tener al menos 2 caracteres")

/-- `UsuarioValidator._is_strong_password` on a string subject. -/
def isStrongPassword (s : String) : Bool :=
  s.toList.any pyIsUpper && s.toList.any pyIsLower && s.toList.any isDig

/-- `UsuarioValidator._validate_password`. -/
def validatePassword (d : Data) : Except String (List ValidationError) :=
  let password := pyGet d "password"
  if !pyTruthy password then .ok []
  else
    match pyLen password with
    | .error e => .error e
    | .ok n =>
        if n < 8 then
          .ok [⟨"password", "La contraseña debe tener al menos 8 caracteres"⟩]
        else
          match password with
          | .str s =>
              .ok (if isStrongPassword s then []
                else [⟨"password",
                  "La contraseña debe contener al menos una letra mayúscula, una minúscula y un número"⟩])
          | _ => .error "TypeError: not a string"

/-- `UsuarioValidator._validate_role`: membership tests never raise. -/
def validateRole (d : Data) : Except String (List ValidationError) :=
  let role := pyGet d "role"
  if pyTruthy role && !valInStrs role ["Administrador", "Cliente"] then
    .ok [⟨"role", "El rol debe ser uno de: Administrador, Cliente"⟩]
  else .ok []

/-- `UsuarioValidator._validate_phone`. -/
def validatePhone (d : Data) : Except String (List ValidationError) :=
  let phone := pyGet d "phone"
  if !pyTruthy phone then .ok []
  else
    match reMatch phonePyMatch phone with
    | .error e => .error e
    | .ok true => .ok []
    | .ok false => .ok [⟨"phone", "El formato del teléfono no es válido"⟩]

/-- `UsuarioValidator._validate`: the six field checks in source
order, run on a shared error list. -/
def usuarioCheck (d : Data) : Except String (List ValidationError) :=
  seqE (validateRut d) (seqE (validateEmail d) (seqE (validateNombres d)
    (seqE (validatePassword d) (seqE (validateRole d) (validatePhone d)))))

/-! ### `ProyectoValidator` field checks -/

/-- A required string field with length bounds, the shape shared by
`_validate_nombre` and `_validate_ubicacion`: required error when
falsy, then a minimum and a maximum length check. -/
def checkRequiredLen (v : Val) (f : String) (lo hi : Nat)
    (req tooShort tooLong : String) : Except String (List ValidationError) :=
  if !pyTruthy v then .ok [⟨f, req⟩]
  else
    match pyLen v with
    | .error e => .error e
    | .ok n =>
        if n < lo then .ok [⟨f, tooShort⟩]
        else if hi < n then .ok [⟨f, tooLong⟩]
        else .ok []

/-- `ProyectoValidator._validate_nombre`. -/
def validateNombre (d : Data) : Except String (List ValidationError) :=
  checkRequiredLen (pyGet d "nombre") "nombre" 3 100
    "El nombre es obligatorio"
    "El nombre debe tener al menos 3 caracteres"
    "El nombre no puede tener más de 100 caracteres"

/-- `ProyectoValidator._validate_ubicacion`. -/
def validateUbicacion (d : Data) : Except String (List ValidationError) :=
  checkRequiredLen (pyGet d "ubicacion") "ubicacion" 5 200
    "La ubicación es obligatoria"
    "La ubicación debe tener al menos 5 caracteres"
    "La ubicación no puede tener más de 200 caracteres"

/-- The re-binding `fecha = date.fromisoformat(fecha)` applied to a
string value inside `_validate_fechas`; non-string values pass through
unchanged. `Option.none` models the caught `ValueError`. -/
def resolveDate : Val → Option Val
  | .str s =>
      match fromisoformat s with
      | Option.some (y, m, d) => Option.some (.date y m d)
      | Option.none => Option.none
  | v => Option.some v

/-- `ProyectoValidator._validate_fechas`: when both dates are truthy,
parse the string-valued ones (an unparsable string records a format
error on its own field and returns early, the start date first), then
record a `fecha_finalizacion` error when start > completion. -/
def validateFechas (d : Data) : Except String (List ValidationError) :=
  let fi := pyGet d "fecha_inicio"
  let ff := pyGet d "fecha_finalizacion"
  if pyTruthy fi && pyTruthy ff then
    match resolveDate fi with
    | Option.none => .ok [⟨"fecha_inicio", "Formato de fecha inválido"⟩]
    | Option.some fi' =>
        match resolveDate ff with
        | Option.none => .ok [⟨"fecha_finalizacion", "Formato de fecha inválido"⟩]
        | Option.some ff' =>
            match pyGt fi' ff' with
            | .error e => .error e
            | .ok b =>
                .ok (if b then
                  [⟨"fecha_finalizacion",
                    "La fecha de finalización debe ser posterior a la fecha de inicio"⟩]
                  else [])
  else .ok []

/-- `ProyectoValidator._validate_estado`: membership test, never
raises. -/
def validateEstadoProyecto (d : Data) : Except String (List ValidationError) :=
  let estado := pyGet d "estado"
  if pyTruthy estado &&
      !valInStrs estado ["Planificación", "En Construcción", "Terminado", "Cancelado"] then
    .ok [⟨"estado", "El estado debe ser uno de: Planificación, En Construcción, Terminado, Cancelado"⟩]
  else .ok []

/-- `ProyectoValidator._validate_codigo`: optional, length 5–20. -/
def validateCodigo (d : Data) : Except String (List ValidationError) :=
  let codigo := pyGet d "codigo"
  if !pyTruthy codigo then .ok []
  else
    match pyLen codigo with
    | .error e => .error e
    | .ok n =>
        if n < 5 then .ok [⟨"codigo", "El código debe tener al menos 5 caracteres"⟩]
        else if 20 < n then .ok [⟨"codigo", "El código no puede tener más de 20 caracteres"⟩]
        else .ok []

/-- `ProyectoValidator._validate`: the five checks in source order. -/
def proyectoCheck (d : Data) : Except String (List ValidationError) :=
  seqE (validateNombre d) (seqE (validateUbicacion d) (seqE (validateFechas d)
    (seqE (validateEstadoProyecto d) (validateCodigo d))))

/-! ### `UnidadValidator` field checks -/

/-- `UnidadValidator._validate_proyecto`: presence only. -/
def validateProyectoRef (d : Data) : Except String (List ValidationError) :=
  if !pyTruthy (pyGet d "proyecto_id") then
    .ok [⟨"proyecto_id", "El proyecto es obligatorio"⟩]
  else .ok []

/-- `UnidadValidator._validate_numero_unidad`. -/
def validateNumeroUnidad (d : Data) : Except String (List ValidationError) :=
  let numero := pyGet d "numero_unidad"
  if !pyTruthy numero then
    .ok [⟨"numero_unidad", "El número de unidad es obligatorio"⟩]
  else
    match pyLen numero with
    | .error e => .error e
    | .ok n =>
        .ok (if 20 < n then
          [⟨"numero_unidad", "El número de unidad no puede tener más de 20 caracteres"⟩]
          else [])

/-- `UnidadValidator._validate_tipo_unidad`. -/
def validateTipoUnidad (d : Data) : Except String (List ValidationError) :=
  let tipo := pyGet d "tipo_unidad"
  if !pyTruthy tipo then
    .ok [⟨"tipo_unidad", "El tipo de unidad es obligatorio"⟩]
  else if !valInStrs tipo ["Departamento", "Casa", "Oficina", "Local Comercial",
      "Terreno", "Bodega", "Estacionamiento"] then
    .ok [⟨"tipo_unidad",
      "El tipo de unidad debe ser uno de: Departamento, Casa, Oficina, Local Comercial, Terreno, Bodega, Estacionamiento"⟩]
  else .ok []

/-- Python `v <= 0` as it appears in the metraje/precio checks: defined
on integers, a `TypeError` on any other value (the `is None` case is
handled before this comparison runs). -/
def pyLeZero : Val → Except String Bool
  | .int n => .ok (decide (n ≤ 0))
  | _ => .error "TypeError: unsupported comparison with int"

/-- A required positive numeric field, the shape shared by
`_validate_metraje` and `_validate_precio`: `is None` check (not
truthiness) then `<= 0`. -/
def checkPositive (v : Val) (f : String) (req nonPos : String) :
    Except String (List ValidationError) :=
  if v == Val.none then .ok [⟨f, req⟩]
  else
    match pyLeZero v with
    | .error e => .error e
    | .ok b => .ok (if b then [⟨f, nonPos⟩] else [])

/-- `UnidadValidator._validate_metraje`. -/
def validateMetraje (d : Data) : Except String (List ValidationError) :=
  checkPositive (pyGet d "metraje_cuadrado") "metraje_cuadrado"
    "El metraje cuadrado es obligatorio"
    "El metraje cuadrado debe ser mayor que cero"

/-- `UnidadValidator._validate_precio`. -/
def validatePrecio (d : Data) : Except String (List ValidationError) :=
  checkPositive (pyGet d "precio_venta") "precio_venta"
    "El precio de venta es obligatorio"
    "El precio de venta debe ser mayor que cero"

/-- `UnidadValidator._validate_estado`. -/
def validateEstadoUnidad (d : Data) : Except String (List ValidationError) :=
  let estado := pyGet d "estado"
  if !pyTruthy estado then
    .ok [⟨"estado", "El estado es obligatorio"⟩]
  else if !valInStrs estado ["Disponible", "Reservado", "Vendido", "No Disponible"] then
    .ok [⟨"estado", "El estado debe ser uno de: Disponible, Reservado, Vendido, No Disponible"⟩]
  else .ok []

/-- `UnidadValidator._validate`: the six checks in source order. -/
def unidadCheck (d : Data) : Except String (List ValidationError) :=
  seqE (validateProyectoRef d) (seqE (validateNumeroUnidad d)
    (seqE (validateTipoUnidad d) (seqE (validateMetraje d)
      (seqE (validatePrecio d) (validateEstadoUnidad d)))))

/-! ### `BaseValidator`: mutable state of `is_valid` / `get_error_dict`

The validator object holds its input mapping and its current error
list.  `is_valid` clears the error list, re-runs `_validate` (the
check function of the concrete validator) and reports whether the
rebuilt list is empty; an exception escaping a field check propagates
out of `is_valid`. -/

/-- The mutable state of a validator object: the data it was
constructed with and its current `self.errors` list. -/
structure ValidatorSt where
  data : Data
  errors : List ValidationError
deriving DecidableEq, Repr

/-- `BaseValidator.is_valid` for a concrete `_validate` given as
`check`: reset `self.errors`, run the checks, return whether the new
list is empty together with the post-call object state. -/
def isValidE (check : Data → Except String (List ValidationError))
    (v : ValidatorSt) : Except String (Bool × ValidatorSt) :=
  match check v.data with
  | .error e => .error e
  | .ok errs => .ok (errs.isEmpty, ⟨v.data, errs⟩)

/-- Insert-or-update step of a Python dict used as a multimap/counter:
if `k` is already a key apply `g` to its value, otherwise append
`(k, init)` (insertion order preserved, as in the source loops). -/
def bumpDict {β : Type} (dict : List (String × β)) (k : String)
    (g : β → β) (init : β) : List (String × β) :=
  if dict.any (fun p => p.1 == k) then
    dict.map (fun p => if p.1 == k then (p.1, g p.2) else p)
  else dict ++ [(k, init)]

/-- `BaseValidator.get_error_dict`: group messages by field name in
first-occurrence order. -/
def get_error_dict (errors : List ValidationError) : List (String × List String) :=
  errors.foldl (fun dict e => bumpDict dict e.field (· ++ [e.message]) [e.message]) []

/-! ### `UnidadService`: the unit state machine and statistics -/

/-- A stored `UnidadPropiedad` row, restricted to the fields the
service layer reads or writes. -/
structure Unidad where
  id : Nat
  proyecto_id : Nat
  tipo_unidad : String
  estado : String
  cliente_id : Option Nat
  precio_venta : ℚ
deriving DecidableEq, Repr

/-- The persisted unit table. -/
abbrev Store := List Unidad

/-- The two business-rule exceptions of `exceptions.py` that the unit
service raises. -/
inductive ServiceError where
  | unidadNoDisponible
  | clienteNoValido
deriving DecidableEq, Repr

/-- `UnidadRepository.get_by_id`: the row with the given primary key,
`None` when absent. -/
def get_by_id (st : Store) (uid : Nat) : Option Unidad :=
  st.find? (fun u => u.id == uid)

/-- Python truthiness of the `cliente_id` attribute (`None` or an
integer primary key): `not unidad.cliente_id` is true exactly on
`None` and `0`. -/
def idTruthy : Option Nat → Bool
  | Option.none => false
  | Option.some n => n != 0

/-- `BaseService.update` followed by `UnidadRepository.update`:
re-fetch the row, apply the field assignments, save; `None` without a
write when the id is absent. -/
def updateUnidad (st : Store) (uid : Nat) (f : Unidad → Unidad) :
    Option Unidad × Store :=
  match st.find? (fun u => u.id == uid) with
  | Option.none => (Option.none, st)
  | Option.some u =>
      (Option.some (f u), st.map (fun v => if v.id == uid then f v else v))

/-- `UnidadService.asignar_cliente`: requires the unit to exist in
state `Disponible`, else `UnidadNoDisponibleError`; on success sets the
client reference and state `Reservado` through `update`. -/
def asignar_cliente (st : Store) (unidad_id cliente_id : Nat) :
    Except ServiceError (Option Unidad × Store) :=
  match get_by_id st unidad_id with
  | Option.none => .error .unidadNoDisponible
  | Option.some u =>
      if u.estado != "Disponible" then .error .unidadNoDisponible
      else .ok (updateUnidad st unidad_id
        (fun v => { v with cliente_id := Option.some cliente_id, estado := "Reservado" }))

/-- `UnidadService.marcar_como_vendida`: requires the unit to exist in
state `Reservado` (`UnidadNoDisponibleError` otherwise) with a truthy
client reference (`ClienteNoValidoError` otherwise); on success sets
state `Vendido` through `update`. -/
def marcar_como_vendida (st : Store) (unidad_id : Nat) :
    Except ServiceError (Option Unidad × Store) :=
  match get_by_id st unidad_id with
  | Option.none => .error .unidadNoDisponible
  | Option.some u =>
      if u.estado != "Reservado" then .error .unidadNoDisponible
      else if !idTruthy u.cliente_id then .error .clienteNoValido
      else .ok (updateUnidad st unidad_id (fun v => { v with estado := "Vendido" }))

/-- One invocation of a unit state-machine operation. -/
inductive UnidadOp where
  | asignar (unidad_id cliente_id : Nat)
  | marcar (unidad_id : Nat)
deriving DecidableEq, Repr

/-- Effect of one service call on the store, as seen by a caller that
catches the business exceptions: a raising call leaves the store as it
was (the service raises before any write). -/
def applyOp (st : Store) (op : UnidadOp) : Store :=
  match op with
  | .asignar uid cid =>
      match asignar_cliente st uid cid with
      | .ok (_, st') => st'
      | .error _ => st
  | .marcar uid =>
      match marcar_como_vendida st uid with
      | .ok (_, st') => st'
      | .error _ => st

/-- Effect of a sequence of service calls. -/
def applyOps (st : Store) (ops : List UnidadOp) : Store :=
  ops.foldl applyOp st

/-- SQL `MIN` over the listed values. -/
def aggMin : List ℚ → Option ℚ
  | [] => Option.none
  | x :: xs => Option.some (xs.foldl min x)

/-- SQL `MAX` over the listed values. -/
def aggMax : List ℚ → Option ℚ
  | [] => Option.none
  | x :: xs => Option.some (xs.foldl max x)

/-- SQL `AVG` over the listed values: `NULL` on an empty set, never a
division by zero. -/
def aggAvg (l : List ℚ) : Option ℚ :=
  if l.isEmpty then Option.none else Option.some (l.sum / l.length)

/-- The per-key counting loop of `get_estadisticas_por_proyecto`. -/
def countBy (key : Unidad → String) (l : List Unidad) : List (String × Nat) :=
  l.foldl (fun dict u => bumpDict dict (key u) (· + 1) 1) []

/-- The aggregate record returned by
`UnidadService.get_estadisticas_por_proyecto`. -/
structure Estadisticas where
  precio_promedio : Option ℚ
  precio_minimo : Option ℚ
  precio_maximo : Option ℚ
  total_unidades : Nat
  unidades_por_estado : List (String × Nat)
  unidades_por_tipo : List (String × Nat)
deriving DecidableEq, Repr

/-- `UnidadService.get_estadisticas_por_proyecto`: aggregates over the
units of one project (`Avg`/`Min`/`Max`/`Count` of `precio_venta`) and
the two counting loops by `estado` and by `tipo_unidad`. -/
def get_estadisticas_por_proyecto (st : Store) (pid : Nat) : Estadisticas :=
  let unidades := st.filter (fun u => u.proyecto_id == pid)
  let precios := unidades.map (fun u => u.precio_venta)
  { precio_promedio := aggAvg precios
    precio_minimo := aggMin precios
    precio_maximo := aggMax precios
    total_unidades := unidades.length
    unidades_por_estado := countBy (fun u => u.estado) unidades
    unidades_por_tipo := countBy (fun u => u.tipo_unidad) unidades }

/-! ### `UsuarioService`: uniqueness enforcement -/

/-- A stored `Usuario` row, restricted to the fields the service layer
consults. -/
structure Usuario where
  id : Nat
  email : String
  rut : String
  role : String
deriving DecidableEq, Repr

/-- The persisted user table. -/
abbrev UStore := List Usuario

/-- Python truthiness of an optional string keyword argument:
`kwargs.get(k)` is falsy when the key is absent or bound to `""`. -/
def strTruthy : Option String → Bool
  | Option.none => false
  | Option.some s => !s.isEmpty

/-- `UsuarioRepository.get_by_email`. -/
def get_by_email (st : UStore) (email : String) : Option Usuario :=
  st.find? (fun u => u.email == email)

/-- `UsuarioRepository.get_by_rut`. -/
def get_by_rut (st : UStore) (rut : String) : Option Usuario :=
  st.find? (fun u => u.rut == rut)

/-- `UsuarioRepository.get_by_id`. -/
def usuario_get_by_id (st : UStore) (uid : Nat) : Option Usuario :=
  st.find? (fun u => u.id == uid)

/-- The keyword arguments of `UsuarioService.create`/`update` that its
business checks consult; an absent field is `Option.none`. -/
structure UsuarioFields where
  email : Option String := Option.none
  rut : Option String := Option.none
  role : Option String := Option.none
deriving DecidableEq, Repr

/-- `UsuarioRepository.update`’s `setattr` loop restricted to the
modelled fields: a supplied field overwrites, an absent one is kept. -/
def applyFields (u : Usuario) (f : UsuarioFields) : Usuario :=
  { u with
    email := f.email.getD u.email
    rut := f.rut.getD u.rut
    role := f.role.getD u.role }

/-- `UsuarioService.create`: reject a truthy email already stored, a
truthy RUT already stored, or a truthy role outside
`{Administrador, Cliente}`; otherwise delegate to the repository,
which inserts a fresh row (role defaults to `Cliente`). -/
def usuario_create (st : UStore) (new_id : Nat) (f : UsuarioFields) :
    Except String (Usuario × UStore) :=
  if strTruthy f.email && (get_by_email st (f.email.getD "")).isSome then
    .error ("Ya existe un usuario con el email " ++ f.email.getD "")
  else if strTruthy f.rut && (get_by_rut st (f.rut.getD "")).isSome then
    .error ("Ya existe un usuario con el RUT " ++ f.rut.getD "")
  else if strTruthy f.role && !(["Administrador", "Cliente"].contains (f.role.getD "")) then
    .error ("El rol " ++ f.role.getD "" ++ " no es válido. Debe ser 'Administrador' o 'Cliente'")
  else
    let u : Usuario :=
      { id := new_id
        email := f.email.getD ""
        rut := f.rut.getD ""
        role := f.role.getD "Cliente" }
    .ok (u, st ++ [u])

/-- `UsuarioService.update`: `None` when the id is absent; otherwise
the email/RUT uniqueness checks are run only when the supplied value is
truthy and differs from the instance's current value, and a found
duplicate conflicts only when it is a different row; the role check is
as in `create`; on success the supplied fields are written through the
repository. -/
def usuario_update (st : UStore) (uid : Nat) (f : UsuarioFields) :
    Except String (Option Usuario × UStore) :=
  match usuario_get_by_id st uid with
  | Option.none => .ok (Option.none, st)
  | Option.some inst =>
      if strTruthy f.email && f.email.getD "" != inst.email &&
          (match get_by_email st (f.email.getD "") with
           | Option.some existing => existing.id != uid
           | Option.none => false) then
        .error ("Ya existe un usuario con el email " ++ f.email.getD "")
      else if strTruthy f.rut && f.rut.getD "" != inst.rut &&
          (match get_by_rut st (f.rut.getD "") with
           | Option.some existing => existing.id != uid
           | Option.none => false) then
        .error ("Ya existe un usuario con el RUT " ++ f.rut.getD "")
      else if strTruthy f.role && !(["Administrador", "Cliente"].contains (f.role.getD "")) then
        .error ("El rol " ++ f.role.getD "" ++ " no es válido. Debe ser 'Administrador' o 'Cliente'")
      else
        let u' := applyFields inst f
        .ok (Option.some u', st.map (fun v => if v.id == uid then u' else v))

/-- `BaseService.delete` (user instantiation): `False` without a write
when the id is absent, else remove the row and return `True`. -/
def usuario_delete (st : UStore) (uid : Nat) : Bool × UStore :=
  match usuario_get_by_id st uid with
  | Option.none => (false, st)
  | Option.some _ => (true, st.filter (fun v => !(v.id == uid)))

/-- The messages recorded for one field, in order: the reference value
`get_error_dict` is compared against. -/
def fieldMsgs (f : String) (errs : List ValidationError) : List String :=
  (errs.filter (fun e => e.field == f)).map (fun e => e.message)

/-- The number of listed units whose `key` is `f`. -/
def countKey (key : Unidad → String) (f : String) (l : List Unidad) : Nat :=
  (l.filter (fun u => key u == f)).length

/-- A value of the expected type for a string-validated field: absent
or an actual string. -/
def strOk (v : Val) : Prop := v = Val.none ∨ ∃ s, v = Val.str s

/-- A value of the expected type for a numeric field: absent or a
number. -/
def numOk (v : Val) : Prop := v = Val.none ∨ ∃ n, v = Val.int n

/-- A value of the expected type for a date field: absent, a string, or
a native date. -/
def dateOk (v : Val) : Prop :=
  v = Val.none ∨ (∃ s, v = Val.str s) ∨ ∃ y m d, v = Val.date y m d

/-! ## Helper lemmas -/

theorem lookup_cons' {β : Type} (a k : String) (b : β) (t : List (String × β)) :
    List.lookup a ((k, b) :: t) = if a = k then some b else List.lookup a t := by
  rw [List.lookup_cons]
  by_cases h : a = k
  · simp [h]
  · rw [beq_false_of_ne h]
    simp [h]

theorem lookup_map_bump {β : Type} (dict : List (String × β)) (k f : String) (g : β → β) :
    List.lookup f (dict.map (fun p => if p.1 == k then (p.1, g p.2) else p)) =
      if f = k then (List.lookup f dict).map g else List.lookup f dict := by
  induction dict with
  | nil => simp [List.lookup]
  | cons p t ih =>
      obtain ⟨a, b⟩ := p
      rw [List.map_cons]
      by_cases hak : a = k
      · rw [if_pos (by simp [hak])]
        by_cases hfa : f = a
        · rw [lookup_cons', lookup_cons', if_pos hfa, if_pos hfa, if_pos (hfa.trans hak)]
          simp
        · rw [lookup_cons', lookup_cons', if_neg hfa, if_neg hfa, ih]
      · rw [if_neg (by simp [hak])]
        by_cases hfa : f = a
        · rw [lookup_cons', lookup_cons', if_pos hfa, if_pos hfa,
            if_neg (fun h => hak (hfa.symm.trans h))]
        · rw [lookup_cons', lookup_cons', if_neg hfa, if_neg hfa, ih]

theorem lookup_append_single {β : Type} (dict : List (String × β)) (k f : String) (b : β) :
    List.lookup f (dict ++ [(k, b)]) =
      match List.lookup f dict with
      | Option.none => if f = k then Option.some b else Option.none
      | Option.some v => Option.some v := by
  induction dict with
  | nil =>
      rw [List.nil_append, lookup_cons']
      by_cases hfk : f = k <;> simp [hfk, List.lookup]
  | cons p t ih =>
      obtain ⟨a, v⟩ := p
      rw [List.cons_append, lookup_cons', lookup_cons']
      by_cases hfa : f = a <;> simp [hfa, ih]

theorem lookup_eq_none_of_any_eq_false {β : Type} (dict : List (String × β)) (k : String)
    (h : dict.any (fun p => p.1 == k) = false) : List.lookup k dict = Option.none := by
  induction dict with
  | nil => simp [List.lookup]
  | cons p t ih =>
      obtain ⟨a, b⟩ := p
      simp only [List.any_cons, Bool.or_eq_false_iff] at h
      rw [lookup_cons', if_neg (fun hh => by simp [hh] at h), ih h.2]

theorem lookup_ne_none_of_mem {β : Type} (dict : List (String × β)) (k : String)
    (h : ∃ b, (k, b) ∈ dict) : List.lookup k dict ≠ Option.none := by
  induction dict with
  | nil => simp at h
  | cons p t ih =>
      obtain ⟨a, v⟩ := p
      rw [lookup_cons']
      by_cases hka : k = a
      · simp [hka]
      · simp only [List.mem_cons] at h
        obtain ⟨b, hb | hb⟩ := h
        · exact absurd (congrArg Prod.fst hb) hka
        · simp only [hka, if_false]
          exact ih ⟨b, hb⟩

theorem lookup_bumpDict {β : Type} (dict : List (String × β)) (k : String)
    (g : β → β) (init : β) (f : String) :
    List.lookup f (bumpDict dict k g init) =
      if f = k then
        (match List.lookup f dict with
         | Option.none => Option.some init
         | Option.some b => Option.some (g b))
      else List.lookup f dict := by
  unfold bumpDict
  by_cases hany : dict.any (fun p => p.1 == k) = true
  · rw [if_pos hany, lookup_map_bump]
    by_cases hfk : f = k
    · subst hfk
      rcases hlk : List.lookup f dict with _ | v
      · exfalso
        rw [List.any_eq_true] at hany
        obtain ⟨⟨a, b⟩, hp, hpk⟩ := hany
        rw [beq_iff_eq] at hpk
        subst hpk
        exact lookup_ne_none_of_mem dict a ⟨b, hp⟩ hlk
      · simp [hlk]
    · simp [hfk]
  · rw [Bool.not_eq_true] at hany
    rw [if_neg (by simp [hany]), lookup_append_single]
    by_cases hfk : f = k
    · subst hfk
      rw [lookup_eq_none_of_any_eq_false dict f hany]
    · rcases hlk : List.lookup f dict with _ | v <;> simp [hfk]

theorem fieldMsgs_cons (f : String) (e : ValidationError) (rest : List ValidationError) :
    fieldMsgs f (e :: rest) =
      if f = e.field then e.message :: fieldMsgs f rest else fieldMsgs f rest := by
  by_cases hfe : f = e.field
  · subst hfe
    simp [fieldMsgs, List.filter_cons]
  · rw [if_neg hfe]
    have hb : (e.field == f) = false := beq_false_of_ne (fun h => hfe h.symm)
    simp [fieldMsgs, List.filter_cons, hb]

theorem lookup_get_error_dict_foldl (errs : List ValidationError)
    (dict : List (String × List String)) (f : String) :
    List.lookup f (errs.foldl
        (fun d e => bumpDict d e.field (· ++ [e.message]) [e.message]) dict) =
      match List.lookup f dict with
      | Option.none =>
          if fieldMsgs f errs = [] then Option.none else Option.some (fieldMsgs f errs)
      | Option.some l => Option.some (l ++ fieldMsgs f errs) := by
  induction errs generalizing dict with
  | nil =>
      rcases hlk : List.lookup f dict with _ | l <;> simp [fieldMsgs, hlk]
  | cons e rest ih =>
      rw [List.foldl_cons, ih, lookup_bumpDict, fieldMsgs_cons]
      by_cases hfe : f = e.field
      · rw [if_pos hfe, if_pos hfe]
        rcases hlk : List.lookup f dict with _ | l <;> simp [hlk]
      · rw [if_neg hfe, if_neg hfe]

/-- Characterization of `get_error_dict`: the entry of a field is
exactly the ordered list of that field's messages, present iff
nonempty. -/
theorem lookup_get_error_dict (errs : List ValidationError) (f : String) :
    List.lookup f (get_error_dict errs) =
      if fieldMsgs f errs = [] then Option.none else Option.some (fieldMsgs f errs) := by
  rw [get_error_dict, lookup_get_error_dict_foldl]
  simp [List.lookup]

theorem countKey_cons (key : Unidad → String) (f : String) (u : Unidad) (rest : List Unidad) :
    countKey key f (u :: rest) =
      if f = key u then countKey key f rest + 1 else countKey key f rest := by
  by_cases hfu : f = key u
  · rw [if_pos hfu]
    have hb : (key u == f) = true := by
      rw [beq_iff_eq]
      exact hfu.symm
    simp [countKey, List.filter_cons, hb]
  · rw [if_neg hfu]
    have hb : (key u == f) = false := beq_false_of_ne (fun h => hfu h.symm)
    simp [countKey, List.filter_cons, hb]

theorem lookup_countBy_foldl (l : List Unidad) (key : Unidad → String)
    (dict : List (String × Nat)) (f : String) :
    List.lookup f (l.foldl (fun d u => bumpDict d (key u) (· + 1) 1) dict) =
      match List.lookup f dict with
      | Option.none =>
          if countKey key f l = 0 then Option.none else Option.some (countKey key f l)
      | Option.some c => Option.some (c + countKey key f l) := by
  induction l generalizing dict with
  | nil =>
      rcases hlk : List.lookup f dict with _ | c <;> simp [countKey, hlk]
  | cons u rest ih =>
      rw [List.foldl_cons, ih, lookup_bumpDict, countKey_cons]
      by_cases hfu : f = key u
      · rw [if_pos hfu, if_pos hfu]
        rcases hlk : List.lookup f dict with _ | c <;>
          simp [hlk, Nat.add_comm, Nat.add_assoc, Nat.add_left_comm]
      · rw [if_neg hfu, if_neg hfu]

/-- Characterization of the counting loops: the entry of a key is the
number of units carrying it, present iff nonzero. -/
theorem lookup_countBy (l : List Unidad) (key : Unidad → String) (f : String) :
    List.lookup f (countBy key l) =
      if countKey key f l = 0 then Option.none else Option.some (countKey key f l) := by
  rw [countBy, lookup_countBy_foldl]
  simp [List.lookup]

theorem find?_map_of_pred_comm {α : Type} (l : List α) (g : α → α) (p : α → Bool)
    (h : ∀ x, p (g x) = p x) :
    (l.map g).find? p = (l.find? p).map g := by
  rw [List.find?_map]
  have hpg : (p ∘ g) = p := funext h
  rw [hpg]

theorem pred_comm_update (uid : Nat) (f : Unidad → Unidad)
    (hid : ∀ v, (f v).id = v.id) (x : Unidad) :
    ((if x.id == uid then f x else x).id == uid) = (x.id == uid) := by
  by_cases h : (x.id == uid) = true
  · simp [h, hid]
  · simp [Bool.not_eq_true] at h
    simp [h]

theorem get_by_id_updateUnidad (st : Store) (uid : Nat) (f : Unidad → Unidad)
    (hid : ∀ v, (f v).id = v.id) (u : Unidad) (hu : get_by_id st uid = Option.some u) :
    updateUnidad st uid f =
      (Option.some (f u), st.map (fun v => if v.id == uid then f v else v)) ∧
    get_by_id (st.map (fun v => if v.id == uid then f v else v)) uid = Option.some (f u) := by
  have hu' : st.find? (fun v => v.id == uid) = Option.some u := hu
  have hpid : (u.id == uid) = true :=
    @List.find?_some Unidad (fun v => v.id == uid) u st hu'
  constructor
  · unfold updateUnidad
    rw [hu']
  · unfold get_by_id
    rw [find?_map_of_pred_comm _ _ _ (pred_comm_update uid f hid), hu']
    simp only [Option.map_some']
    rw [if_pos hpid]

/-- C1: `asignar_cliente` raises `UnidadNoDisponibleError` (leaving the
store unchanged) when the unit is absent or not `Disponible`, and on a
`Disponible` unit sets its client reference and state `Reservado`. -/
theorem asignar_cliente_spec (st : Store) (uid cid : Nat) :
    ((get_by_id st uid = Option.none ∨
        ∃ u, get_by_id st uid = Option.some u ∧ u.estado ≠ "Disponible") →
      asignar_cliente st uid cid = .error .unidadNoDisponible ∧
      applyOp st (.asignar uid cid) = st) ∧
    (∀ u, get_by_id st uid = Option.some u → u.estado = "Disponible" →
      ∃ st', asignar_cliente st uid cid =
          .ok (Option.some { u with cliente_id := Option.some cid, estado := "Reservado" }, st') ∧
        get_by_id st' uid =
          Option.some { u with cliente_id := Option.some cid, estado := "Reservado" }) := by
  constructor
  · intro h
    have herr : asignar_cliente st uid cid = .error .unidadNoDisponible := by
      rcases h with h | ⟨u, hu, hne⟩
      · simp [asignar_cliente, h]
      · simp [asignar_cliente, hu, bne_iff_ne, hne]
    refine ⟨herr, ?_⟩
    simp [applyOp, herr]
  · intro u hu hd
    have hid : ∀ v : Unidad,
        ({ v with cliente_id := Option.some cid, estado := "Reservado" } : Unidad).id = v.id :=
      fun v => rfl
    obtain ⟨hupd, hget⟩ := get_by_id_updateUnidad st uid
      (fun v => { v with cliente_id := Option.some cid, estado := "Reservado" }) hid u hu
    refine ⟨_, ?_, hget⟩
    simp [asignar_cliente, hu, hd, hupd]

/-- Witness for C1 at a concrete store: reserving an available unit
succeeds, reserving a sold one raises. -/
theorem asignar_cliente_spec_witness :
    (∃ st', asignar_cliente [⟨1, 1, "Casa", "Disponible", Option.none, 5000⟩] 1 7 =
        .ok (Option.some ⟨1, 1, "Casa", "Reservado", Option.some 7, 5000⟩, st') ∧
      get_by_id st' 1 = Option.some ⟨1, 1, "Casa", "Reservado", Option.some 7, 5000⟩) ∧
    asignar_cliente [⟨1, 1, "Casa", "Vendido", Option.some 3, 5000⟩] 1 7 =
      .error .unidadNoDisponible := by
  constructor
  · obtain ⟨st', h1, h2⟩ :=
      (asignar_cliente_spec [⟨1, 1, "Casa", "Disponible", Option.none, 5000⟩] 1 7).2
        ⟨1, 1, "Casa", "Disponible", Option.none, 5000⟩ rfl rfl
    exact ⟨st', h1, h2⟩
  · exact ((asignar_cliente_spec [⟨1, 1, "Casa", "Vendido", Option.some 3, 5000⟩] 1 7).1
      (Or.inr ⟨⟨1, 1, "Casa", "Vendido", Option.some 3, 5000⟩, rfl, by decide⟩)).1

/-- C2: `marcar_como_vendida` raises `UnidadNoDisponibleError` when the
unit is absent or not `Reservado`, raises `ClienteNoValidoError` when
it is `Reservado` without a client reference, and on a `Reservado` unit
with an assigned client (a real primary key is nonzero) sets state
`Vendido`, retaining the client reference. -/
theorem marcar_como_vendida_spec (st : Store) (uid : Nat) :
    ((get_by_id st uid = Option.none ∨
        ∃ u, get_by_id st uid = Option.some u ∧ u.estado ≠ "Reservado") →
      marcar_como_vendida st uid = .error .unidadNoDisponible ∧
      applyOp st (.marcar uid) = st) ∧
    (∀ u, get_by_id st uid = Option.some u → u.estado = "Reservado" →
      u.cliente_id = Option.none →
      marcar_como_vendida st uid = .error .clienteNoValido ∧
      applyOp st (.marcar uid) = st) ∧
    (∀ u c, get_by_id st uid = Option.some u → u.estado = "Reservado" →
      u.cliente_id = Option.some c → c ≠ 0 →
      ∃ st', marcar_como_vendida st uid =
          .ok (Option.some { u with estado := "Vendido" }, st') ∧
        get_by_id st' uid = Option.some { u with estado := "Vendido" } ∧
        ({ u with estado := "Vendido" } : Unidad).cliente_id = Option.some c) := by
  refine ⟨?_, ?_, ?_⟩
  · intro h
    have herr : marcar_como_vendida st uid = .error .unidadNoDisponible := by
      rcases h with h | ⟨u, hu, hne⟩
      · simp [marcar_como_vendida, h]
      · simp [marcar_como_vendida, hu, bne_iff_ne, hne]
    refine ⟨herr, ?_⟩
    simp [applyOp, herr]
  · intro u hu hr hc
    have herr : marcar_como_vendida st uid = .error .clienteNoValido := by
      simp [marcar_como_vendida, hu, hr, idTruthy, hc]
    refine ⟨herr, ?_⟩
    simp [applyOp, herr]
  · intro u c hu hr hc hc0
    have hid : ∀ v : Unidad, ({ v with estado := "Vendido" } : Unidad).id = v.id :=
      fun v => rfl
    obtain ⟨hupd, hget⟩ := get_by_id_updateUnidad st uid
      (fun v => { v with estado := "Vendido" }) hid u hu
    refine ⟨_, ?_, hget, by simp [hc]⟩
    simp [marcar_como_vendida, hu, hr, idTruthy, hc, hc0, hupd]

/-- Witness for C2 at concrete stores: selling a reserved unit with a
client succeeds retaining the client, a reserved unit without client
raises `ClienteNoValidoError`, an available unit raises
`UnidadNoDisponibleError`. -/
theorem marcar_como_vendida_spec_witness :
    (∃ st', marcar_como_vendida [⟨1, 1, "Casa", "Reservado", Option.some 7, 5000⟩] 1 =
        .ok (Option.some ⟨1, 1, "Casa", "Vendido", Option.some 7, 5000⟩, st') ∧
      get_by_id st' 1 = Option.some ⟨1, 1, "Casa", "Vendido", Option.some 7, 5000⟩) ∧
    marcar_como_vendida [⟨1, 1, "Casa", "Reservado", Option.none, 5000⟩] 1 =
      .error .clienteNoValido ∧
    marcar_como_vendida [⟨1, 1, "Casa", "Disponible", Option.none, 5000⟩] 1 =
      .error .unidadNoDisponible := by
  refine ⟨?_, ?_, ?_⟩
  · obtain ⟨st', h1, h2, h3⟩ :=
      (marcar_como_vendida_spec [⟨1, 1, "Casa", "Reservado", Option.some 7, 5000⟩] 1).2.2
        ⟨1, 1, "Casa", "Reservado", Option.some 7, 5000⟩ 7 rfl rfl rfl (by decide)
    exact ⟨st', h1, h2⟩
  · exact ((marcar_como_vendida_spec [⟨1, 1, "Casa", "Reservado", Option.none, 5000⟩] 1).2.1
      ⟨1, 1, "Casa", "Reservado", Option.none, 5000⟩ rfl rfl rfl).1
  · exact ((marcar_como_vendida_spec [⟨1, 1, "Casa", "Disponible", Option.none, 5000⟩] 1).1
      (Or.inr ⟨⟨1, 1, "Casa", "Disponible", Option.none, 5000⟩, rfl, by decide⟩)).1

theorem pred_comm_update2 (uid uid' : Nat) (f : Unidad → Unidad)
    (hid : ∀ v, (f v).id = v.id) (x : Unidad) :
    ((if x.id == uid' then f x else x).id == uid) = (x.id == uid) := by
  by_cases h : (x.id == uid') = true
  · simp [h, hid]
  · simp [Bool.not_eq_true] at h
    simp [h]

theorem applyOps_cons (st : Store) (op : UnidadOp) (rest : List UnidadOp) :
    applyOps st (op :: rest) = applyOps (applyOp st op) rest := by
  simp [applyOps]

/-- Effect of one state-machine call on one tracked row: either the row
is untouched, or it was `Disponible` and the call was its reservation,
or it was `Reservado` and the call was its sale. -/
theorem applyOp_case (st : Store) (op : UnidadOp) (uid : Nat) (u : Unidad)
    (hu : get_by_id st uid = Option.some u) :
    get_by_id (applyOp st op) uid = Option.some u ∨
    (∃ cid, op = .asignar uid cid ∧ u.estado = "Disponible" ∧
      get_by_id (applyOp st op) uid =
        Option.some { u with cliente_id := Option.some cid, estado := "Reservado" }) ∨
    (op = .marcar uid ∧ u.estado = "Reservado" ∧
      get_by_id (applyOp st op) uid = Option.some { u with estado := "Vendido" }) := by
  have hu' : st.find? (fun v => v.id == uid) = Option.some u := hu
  have hpid : (u.id == uid) = true :=
    @List.find?_some Unidad (fun v => v.id == uid) u st hu'
  cases op with
  | asignar uid' cid =>
      by_cases huid : uid' = uid
      · subst huid
        by_cases hd : u.estado = "Disponible"
        · right; left
          have hid : ∀ v : Unidad,
              ({ v with cliente_id := Option.some cid, estado := "Reservado" } : Unidad).id = v.id :=
            fun v => rfl
          obtain ⟨hupd, hget⟩ := get_by_id_updateUnidad st uid'
            (fun v => { v with cliente_id := Option.some cid, estado := "Reservado" }) hid u hu
          refine ⟨cid, rfl, hd, ?_⟩
          have happ : applyOp st (.asignar uid' cid) =
              st.map (fun v => if v.id == uid' then
                { v with cliente_id := Option.some cid, estado := "Reservado" } else v) := by
            simp [applyOp, asignar_cliente, hu, hd, hupd]
          rw [happ]
          exact hget
        · left
          have herr : asignar_cliente st uid' cid = .error .unidadNoDisponible := by
            simp [asignar_cliente, hu, bne_iff_ne, hd]
          simpa [applyOp, herr] using hu
      · rcases hw : get_by_id st uid' with _ | w
        · left
          simpa [applyOp, asignar_cliente, hw] using hu
        · by_cases hd : w.estado = "Disponible"
          · left
            have hid : ∀ v : Unidad,
                ({ v with cliente_id := Option.some cid, estado := "Reservado" } : Unidad).id = v.id :=
              fun v => rfl
            obtain ⟨hupd, hget⟩ := get_by_id_updateUnidad st uid'
              (fun v => { v with cliente_id := Option.some cid, estado := "Reservado" }) hid w hw
            have happ : applyOp st (.asignar uid' cid) =
                st.map (fun v => if v.id == uid' then
                  { v with cliente_id := Option.some cid, estado := "Reservado" } else v) := by
              simp [applyOp, asignar_cliente, hw, hd, hupd]
            rw [happ]
            unfold get_by_id
            rw [find?_map_of_pred_comm _ _ _ (pred_comm_update2 uid uid' _ hid), hu']
            simp only [Option.map_some']
            have hne : (u.id == uid') = false := by
              rw [beq_eq_false_iff_ne]
              intro hh
              exact huid (hh.symm.trans (beq_iff_eq.mp hpid))
            rw [if_neg (by simp [hne])]
          · left
            have herr : asignar_cliente st uid' cid = .error .unidadNoDisponible := by
              simp [asignar_cliente, hw, bne_iff_ne, hd]
            simpa [applyOp, herr] using hu
  | marcar uid' =>
      by_cases huid : uid' = uid
      · subst huid
        by_cases hr : u.estado = "Reservado"
        · by_cases hc : idTruthy u.cliente_id = true
          · right; right
            have hid : ∀ v : Unidad, ({ v with estado := "Vendido" } : Unidad).id = v.id :=
              fun v => rfl
            obtain ⟨hupd, hget⟩ := get_by_id_updateUnidad st uid'
              (fun v => { v with estado := "Vendido" }) hid u hu
            refine ⟨rfl, hr, ?_⟩
            have happ : applyOp st (.marcar uid') =
                st.map (fun v => if v.id == uid' then { v with estado := "Vendido" } else v) := by
              simp [applyOp, marcar_como_vendida, hu, hr, hc, hupd]
            rw [happ]
            exact hget
          · left
            have herr : marcar_como_vendida st uid' = .error .clienteNoValido := by
              simp only [Bool.not_eq_true] at hc
              simp [marcar_como_vendida, hu, hr, hc]
            simpa [applyOp, herr] using hu
        · left
          have herr : marcar_como_vendida st uid' = .error .unidadNoDisponible := by
            simp [marcar_como_vendida, hu, bne_iff_ne, hr]
          simpa [applyOp, herr] using hu
      · rcases hw : get_by_id st uid' with _ | w
        · left
          simpa [applyOp, marcar_como_vendida, hw] using hu
        · by_cases hr : w.estado = "Reservado"
          · by_cases hc : idTruthy w.cliente_id = true
            · left
              have hid : ∀ v : Unidad, ({ v with estado := "Vendido" } : Unidad).id = v.id :=
                fun v => rfl
              obtain ⟨hupd, hget⟩ := get_by_id_updateUnidad st uid'
                (fun v => { v with estado := "Vendido" }) hid w hw
              have happ : applyOp st (.marcar uid') =
                  st.map (fun v => if v.id == uid' then { v with estado := "Vendido" } else v) := by
                simp [applyOp, marcar_como_vendida, hw, hr, hc, hupd]
              rw [happ]
              unfold get_by_id
              rw [find?_map_of_pred_comm _ _ _ (pred_comm_update2 uid uid' _ hid), hu']
              simp only [Option.map_some']
              have hne : (u.id == uid') = false := by
                rw [beq_eq_false_iff_ne]
                intro hh
                exact huid (hh.symm.trans (beq_iff_eq.mp hpid))
              rw [if_neg (by simp [hne])]
            · left
              have herr : marcar_como_vendida st uid' = .error .clienteNoValido := by
                simp only [Bool.not_eq_true] at hc
                simp [marcar_como_vendida, hw, hr, hc]
              simpa [applyOp, herr] using hu
          · left
            have herr : marcar_como_vendida st uid' = .error .unidadNoDisponible := by
              simp [marcar_como_vendida, hw, bne_iff_ne, hr]
            simpa [applyOp, herr] using hu

theorem applyOps_vendido (ops : List UnidadOp) : ∀ (st : Store) (uid : Nat) (u : Unidad),
    get_by_id st uid = Option.some u → u.estado = "Vendido" →
    get_by_id (applyOps st ops) uid = Option.some u := by
  induction ops with
  | nil =>
      intro st uid u hu _
      simpa [applyOps] using hu
  | cons op rest ih =>
      intro st uid u hu hv
      rw [applyOps_cons]
      rcases applyOp_case st op uid u hu with h | ⟨cid, _, hd, _⟩ | ⟨_, hr, _⟩
      · exact ih _ uid u h hv
      · rw [hv] at hd
        exact absurd hd (by decide)
      · rw [hv] at hr
        exact absurd hr (by decide)

theorem applyOps_not_disponible (ops : List UnidadOp) : ∀ (st : Store) (uid : Nat) (u : Unidad),
    get_by_id st uid = Option.some u → u.estado ≠ "Disponible" →
    ∃ u', get_by_id (applyOps st ops) uid = Option.some u' ∧ u'.estado ≠ "Disponible" := by
  induction ops with
  | nil =>
      intro st uid u hu h
      exact ⟨u, by simpa [applyOps] using hu, h⟩
  | cons op rest ih =>
      intro st uid u hu h
      rw [applyOps_cons]
      rcases applyOp_case st op uid u hu with h1 | ⟨cid, _, hd, h1⟩ | ⟨_, hr, h1⟩
      · exact ih _ uid u h1 h
      · exact absurd hd h
      · exact ih _ uid _ h1 (by simp)

/-- C9: under `asignar_cliente` and `marcar_como_vendida`, a `Vendido`
row is never changed by any sequence of calls, no sequence takes a
`Reservado` row back to `Disponible`, and a single call changes a row's
state only `Disponible → Reservado` or `Reservado → Vendido`. -/
theorem unidad_state_machine_spec (st : Store) (ops : List UnidadOp)
    (op : UnidadOp) (uid : Nat) :
    (∀ u, get_by_id st uid = Option.some u → u.estado = "Vendido" →
      get_by_id (applyOps st ops) uid = Option.some u) ∧
    (∀ u u', get_by_id st uid = Option.some u → u.estado = "Reservado" →
      get_by_id (applyOps st ops) uid = Option.some u' → u'.estado ≠ "Disponible") ∧
    (∀ u u', get_by_id st uid = Option.some u →
      get_by_id (applyOp st op) uid = Option.some u' →
      u'.estado = u.estado ∨
      (u.estado = "Disponible" ∧ u'.estado = "Reservado") ∨
      (u.estado = "Reservado" ∧ u'.estado = "Vendido")) := by
  refine ⟨?_, ?_, ?_⟩
  · intro u hu hv
    exact applyOps_vendido ops st uid u hu hv
  · intro u u' hu hr hu'
    obtain ⟨u'', hu'', hnd⟩ :=
      applyOps_not_disponible ops st uid u hu (by rw [hr]; decide)
    rw [hu'] at hu''
    rw [Option.some.inj hu'']
    exact hnd
  · intro u u' hu hu'
    rcases applyOp_case st op uid u hu with h | ⟨cid, _, hd, h⟩ | ⟨_, hr, h⟩
    · rw [hu'] at h
      left
      rw [Option.some.inj h]
    · rw [hu'] at h
      right; left
      refine ⟨hd, ?_⟩
      rw [Option.some.inj h]
    · rw [hu'] at h
      right; right
      refine ⟨hr, ?_⟩
      rw [Option.some.inj h]

/-- Witness for C9 at concrete stores: a sold unit survives a
reserve-then-sell sequence untouched; a reserved unit is not
`Disponible` after a sale call; one reservation call on an available
unit is a `Disponible → Reservado` step. -/
theorem unidad_state_machine_spec_witness :
    get_by_id (applyOps [⟨1, 1, "Casa", "Vendido", Option.some 2, 5000⟩]
        [.asignar 1 9, .marcar 1]) 1 =
      Option.some ⟨1, 1, "Casa", "Vendido", Option.some 2, 5000⟩ ∧
    (⟨1, 1, "Casa", "Vendido", Option.some 9, 5000⟩ : Unidad).estado ≠ "Disponible" ∧
    ((⟨1, 1, "Casa", "Disponible", Option.none, 5000⟩ : Unidad).estado = "Disponible" ∧
      (⟨1, 1, "Casa", "Reservado", Option.some 9, 5000⟩ : Unidad).estado = "Reservado") := by
  refine ⟨?_, ?_, ?_⟩
  · exact (unidad_state_machine_spec [⟨1, 1, "Casa", "Vendido", Option.some 2, 5000⟩]
      [.asignar 1 9, .marcar 1] (.marcar 1) 1).1
      ⟨1, 1, "Casa", "Vendido", Option.some 2, 5000⟩ rfl rfl
  · exact (unidad_state_machine_spec [⟨1, 1, "Casa", "Reservado", Option.some 9, 5000⟩]
      [.marcar 1] (.marcar 1) 1).2.1
      ⟨1, 1, "Casa", "Reservado", Option.some 9, 5000⟩
      ⟨1, 1, "Casa", "Vendido", Option.some 9, 5000⟩ rfl rfl (by rfl)
  · have h := (unidad_state_machine_spec [⟨1, 1, "Casa", "Disponible", Option.none, 5000⟩]
      [] (.asignar 1 9) 1).2.2
      ⟨1, 1, "Casa", "Disponible", Option.none, 5000⟩
      ⟨1, 1, "Casa", "Reservado", Option.some 9, 5000⟩ rfl (by rfl)
    rcases h with h | h | h
    · exact absurd h (by decide)
    · exact h
    · exact absurd h.1 (by decide)

theorem not_isEmpty_of_ne {r : String} (h : r ≠ "") : (!r.isEmpty) = true := by
  simp [Bool.eq_false_iff, String.isEmpty_iff, h]

/-- C10: `UsuarioService.update` on a missing id returns `None` without
raising, without running any uniqueness or role check (the fields are
arbitrary), and without touching the store; `BaseService.delete` on a
missing id returns `False` and leaves the store unchanged. -/
theorem missing_id_noop_spec (st : UStore) (uid : Nat) (f : UsuarioFields) :
    usuario_get_by_id st uid = Option.none →
    usuario_update st uid f = .ok (Option.none, st) ∧
    usuario_delete st uid = (false, st) := by
  intro h
  constructor
  · simp [usuario_update, h]
  · simp [usuario_delete, h]

/-- Witness for C10: updating a missing id with a duplicate email, a
duplicate RUT and an invalid role still returns `None` with the store
intact, and deleting it returns `False`. -/
theorem missing_id_noop_spec_witness :
    usuario_update [⟨1, "a@b.cd", "1-9", "Cliente"⟩] 2
        ⟨Option.some "a@b.cd", Option.some "1-9", Option.some "X"⟩ =
      .ok (Option.none, [⟨1, "a@b.cd", "1-9", "Cliente"⟩]) ∧
    usuario_delete [⟨1, "a@b.cd", "1-9", "Cliente"⟩] 2 =
      (false, [⟨1, "a@b.cd", "1-9", "Cliente"⟩]) :=
  missing_id_noop_spec [⟨1, "a@b.cd", "1-9", "Cliente"⟩] 2
    ⟨Option.some "a@b.cd", Option.some "1-9", Option.some "X"⟩ rfl

/-- C3: `UsuarioService.create` rejects a supplied email or RUT already
stored and a supplied role outside `{Administrador, Cliente}`;
`UsuarioService.update` runs the same uniqueness checks excluding the
row being updated, so re-submitting the row's own email and RUT
succeeds, while a different row holding the email still conflicts. -/
theorem usuario_service_uniqueness_spec :
    (∀ (st : UStore) (nid : Nat) (f : UsuarioFields) (e : String),
      f.email = Option.some e → e ≠ "" → (∃ u ∈ st, u.email = e) →
      ∃ msg, usuario_create st nid f = .error msg) ∧
    (∀ (st : UStore) (nid : Nat) (f : UsuarioFields) (r : String),
      f.rut = Option.some r → r ≠ "" → (∃ u ∈ st, u.rut = r) →
      ∃ msg, usuario_create st nid f = .error msg) ∧
    (∀ (st : UStore) (nid : Nat) (f : UsuarioFields) (ro : String),
      f.role = Option.some ro → ro ≠ "" →
      ro ≠ "Administrador" → ro ≠ "Cliente" →
      ∃ msg, usuario_create st nid f = .error msg) ∧
    (∀ (st : UStore) (uid : Nat) (inst : Usuario) (f : UsuarioFields),
      usuario_get_by_id st uid = Option.some inst →
      f.email = Option.some inst.email → f.rut = Option.some inst.rut →
      (f.role = Option.none ∨ f.role = Option.some "" ∨
        f.role = Option.some "Administrador" ∨ f.role = Option.some "Cliente") →
      ∃ u' st', usuario_update st uid f = .ok (Option.some u', st')) ∧
    (∀ (st : UStore) (uid : Nat) (inst : Usuario) (f : UsuarioFields) (e : String)
        (ex : Usuario),
      usuario_get_by_id st uid = Option.some inst →
      f.email = Option.some e → e ≠ "" → e ≠ inst.email →
      get_by_email st e = Option.some ex → ex.id ≠ uid →
      ∃ msg, usuario_update st uid f = .error msg) := by
  refine ⟨?_, ?_, ?_, ?_, ?_⟩
  · intro st nid f e hfe hne ⟨u, hmem, hmail⟩
    have hc1 : (strTruthy f.email && (get_by_email st (f.email.getD "")).isSome) = true := by
      rw [hfe]
      rw [Bool.and_eq_true]
      exact ⟨not_isEmpty_of_ne hne, List.find?_isSome.mpr ⟨u, hmem, beq_iff_eq.mpr hmail⟩⟩
    unfold usuario_create
    rw [if_pos hc1]
    exact ⟨_, rfl⟩
  · intro st nid f r hfr hne ⟨u, hmem, hrut⟩
    unfold usuario_create
    by_cases h1 : (strTruthy f.email && (get_by_email st (f.email.getD "")).isSome) = true
    · rw [if_pos h1]
      exact ⟨_, rfl⟩
    · rw [if_neg h1]
      have hc2 : (strTruthy f.rut && (get_by_rut st (f.rut.getD "")).isSome) = true := by
        rw [hfr]
        rw [Bool.and_eq_true]
        exact ⟨not_isEmpty_of_ne hne, List.find?_isSome.mpr ⟨u, hmem, beq_iff_eq.mpr hrut⟩⟩
      rw [if_pos hc2]
      exact ⟨_, rfl⟩
  · intro st nid f ro hfro hne hna hnc
    unfold usuario_create
    by_cases h1 : (strTruthy f.email && (get_by_email st (f.email.getD "")).isSome) = true
    · rw [if_pos h1]
      exact ⟨_, rfl⟩
    · rw [if_neg h1]
      by_cases h2 : (strTruthy f.rut && (get_by_rut st (f.rut.getD "")).isSome) = true
      · rw [if_pos h2]
        exact ⟨_, rfl⟩
      · rw [if_neg h2]
        have hc3 : (strTruthy f.role &&
            !(["Administrador", "Cliente"].contains (f.role.getD ""))) = true := by
          rw [hfro]
          rw [Bool.and_eq_true]
          exact ⟨not_isEmpty_of_ne hne, by simp [List.contains, hna, hnc]⟩
        rw [if_pos hc3]
        exact ⟨_, rfl⟩
  · intro st uid inst f hinst hfe hfr hrole
    simp only [usuario_update, hinst]
    have hc1 : (strTruthy f.email && (f.email.getD "" != inst.email) &&
        (match get_by_email st (f.email.getD "") with
         | Option.some existing => existing.id != uid
         | Option.none => false)) = false := by
      rw [hfe]
      simp
    have hc2 : (strTruthy f.rut && (f.rut.getD "" != inst.rut) &&
        (match get_by_rut st (f.rut.getD "") with
         | Option.some existing => existing.id != uid
         | Option.none => false)) = false := by
      rw [hfr]
      simp
    have hc3 : (strTruthy f.role &&
        !(["Administrador", "Cliente"].contains (f.role.getD ""))) = false := by
      rcases hrole with h | h | h | h <;> rw [h] <;> decide
    rw [if_neg (by rw [hc1]; exact Bool.false_ne_true),
      if_neg (by rw [hc2]; exact Bool.false_ne_true),
      if_neg (by rw [hc3]; exact Bool.false_ne_true)]
    exact ⟨_, _, rfl⟩
  · intro st uid inst f e ex hinst hfe hne hnei hex hexid
    simp only [usuario_update, hinst]
    have hc1 : (strTruthy f.email && (f.email.getD "" != inst.email) &&
        (match get_by_email st (f.email.getD "") with
         | Option.some existing => existing.id != uid
         | Option.none => false)) = true := by
      rw [hfe]
      simp only [Option.getD_some, hex]
      rw [Bool.and_eq_true, Bool.and_eq_true]
      exact ⟨⟨not_isEmpty_of_ne hne, by simp [hnei]⟩, by simp [hexid]⟩
    rw [if_pos hc1]
    exact ⟨_, rfl⟩

/-- Witness for C3 at concrete stores: duplicate email, duplicate RUT
and invalid role each reject creation; self-update succeeds; updating
to another row's email conflicts. -/
theorem usuario_service_uniqueness_spec_witness :
    (∃ msg, usuario_create [⟨1, "a@b.cd", "1-9", "Cliente"⟩] 2
        ⟨Option.some "a@b.cd", Option.some "2-7", Option.none⟩ = .error msg) ∧
    (∃ msg, usuario_create [⟨1, "a@b.cd", "1-9", "Cliente"⟩] 2
        ⟨Option.some "x@y.zw", Option.some "1-9", Option.none⟩ = .error msg) ∧
    (∃ msg, usuario_create [⟨1, "a@b.cd", "1-9", "Cliente"⟩] 2
        ⟨Option.some "x@y.zw", Option.some "2-7", Option.some "Gerente"⟩ = .error msg) ∧
    (∃ u' st', usuario_update [⟨1, "a@b.cd", "1-9", "Cliente"⟩] 1
        ⟨Option.some "a@b.cd", Option.some "1-9", Option.some "Cliente"⟩ =
      .ok (Option.some u', st')) ∧
    (∃ msg, usuario_update [⟨1, "a@b.cd", "1-9", "Cliente"⟩, ⟨2, "x@y.zw", "2-7", "Cliente"⟩] 2
        ⟨Option.some "a@b.cd", Option.none, Option.none⟩ = .error msg) := by
  refine ⟨?_, ?_, ?_, ?_, ?_⟩
  · exact usuario_service_uniqueness_spec.1 _ 2 _ "a@b.cd" rfl (by decide)
      ⟨⟨1, "a@b.cd", "1-9", "Cliente"⟩, by simp, rfl⟩
  · exact usuario_service_uniqueness_spec.2.1 _ 2 _ "1-9" rfl (by decide)
      ⟨⟨1, "a@b.cd", "1-9", "Cliente"⟩, by simp, rfl⟩
  · exact usuario_service_uniqueness_spec.2.2.1 _ 2 _ "Gerente" rfl (by decide)
      (by decide) (by decide)
  · exact usuario_service_uniqueness_spec.2.2.2.1 _ 1 ⟨1, "a@b.cd", "1-9", "Cliente"⟩ _
      rfl rfl rfl (Or.inr (Or.inr (Or.inr rfl)))
  · exact usuario_service_uniqueness_spec.2.2.2.2 _ 2 ⟨2, "x@y.zw", "2-7", "Cliente"⟩ _
      "a@b.cd" ⟨1, "a@b.cd", "1-9", "Cliente"⟩ rfl rfl (by decide) (by decide) rfl
      (by decide)

/-- C4: for each of the three validators, `is_valid` returns true iff
the rebuilt error list is empty, `get_error_dict` groups exactly those
errors by field, and because the error list is reset on every call the
result does not depend on the prior list and repeated calls agree with
the first. -/
theorem validator_is_valid_spec :
    ∀ check : Data → Except String (List ValidationError),
    check = usuarioCheck ∨ check = proyectoCheck ∨ check = unidadCheck →
    ∀ (d : Data) (errs0 : List ValidationError),
    isValidE check ⟨d, errs0⟩ = isValidE check ⟨d, []⟩ ∧
    ∀ (b : Bool) (v' : ValidatorSt), isValidE check ⟨d, errs0⟩ = .ok (b, v') →
      (b = true ↔ v'.errors = []) ∧
      (∀ f, List.lookup f (get_error_dict v'.errors) =
        if fieldMsgs f v'.errors = [] then Option.none
        else Option.some (fieldMsgs f v'.errors)) ∧
      isValidE check v' = .ok (b, v') := by
  intro check _ d errs0
  constructor
  · rcases hc : check d with e | errs <;> simp [isValidE, hc]
  · intro b v' h
    rcases hc : check d with e | errs
    · rw [isValidE, hc] at h
      cases h
    · rw [isValidE, hc] at h
      rw [Except.ok.injEq, Prod.mk.injEq] at h
      obtain ⟨hb, hv⟩ := h
      subst hv
      refine ⟨?_, ?_, ?_⟩
      · rw [← hb]
        simp [List.isEmpty_iff]
      · intro f
        exact lookup_get_error_dict errs f
      · simp [isValidE, hc, hb]

/-- Witness for C4: the user validator on empty input, starting from a
stale error list, matches the fresh run; `is_valid` is false with the
four required-field errors, whose dictionary groups them; and a second
call returns the same. -/
theorem validator_is_valid_spec_witness :
    isValidE usuarioCheck ⟨[], [⟨"stale", "stale"⟩]⟩ = isValidE usuarioCheck ⟨[], []⟩ ∧
    (false = true ↔
      ([⟨"rut", "El RUT es obligatorio"⟩, ⟨"email", "El email es obligatorio"⟩,
        ⟨"first_name", "El nombre es obligatorio"⟩,
        ⟨"last_name", "El apellido es obligatorio"⟩] : List ValidationError) = []) ∧
    List.lookup "rut" (get_error_dict
      [⟨"rut", "El RUT es obligatorio"⟩, ⟨"email", "El email es obligatorio"⟩,
        ⟨"first_name", "El nombre es obligatorio"⟩,
        ⟨"last_name", "El apellido es obligatorio"⟩]) =
      (if fieldMsgs "rut"
          [⟨"rut", "El RUT es obligatorio"⟩, ⟨"email", "El email es obligatorio"⟩,
            ⟨"first_name", "El nombre es obligatorio"⟩,
            ⟨"last_name", "El apellido es obligatorio"⟩] = [] then Option.none
        else Option.some (fieldMsgs "rut"
          [⟨"rut", "El RUT es obligatorio"⟩, ⟨"email", "El email es obligatorio"⟩,
            ⟨"first_name", "El nombre es obligatorio"⟩,
            ⟨"last_name", "El apellido es obligatorio"⟩])) ∧
    isValidE usuarioCheck
        ⟨[], [⟨"rut", "El RUT es obligatorio"⟩, ⟨"email", "El email es obligatorio"⟩,
          ⟨"first_name", "El nombre es obligatorio"⟩,
          ⟨"last_name", "El apellido es obligatorio"⟩]⟩ =
      .ok (false, ⟨[], [⟨"rut", "El RUT es obligatorio"⟩, ⟨"email", "El email es obligatorio"⟩,
          ⟨"first_name", "El nombre es obligatorio"⟩,
          ⟨"last_name", "El apellido es obligatorio"⟩]⟩) := by
  have h := validator_is_valid_spec usuarioCheck (Or.inl rfl) [] [⟨"stale", "stale"⟩]
  have h2 := h.2 false
    ⟨[], [⟨"rut", "El RUT es obligatorio"⟩, ⟨"email", "El email es obligatorio"⟩,
      ⟨"first_name", "El nombre es obligatorio"⟩,
      ⟨"last_name", "El apellido es obligatorio"⟩]⟩ (by rfl)
  exact ⟨h.1, h2.1, h2.2.1 "rut", h2.2.2⟩

theorem seqE_ok {a b : Except String (List ValidationError)}
    (ha : ∃ l, a = .ok l) (hb : ∃ l, b = .ok l) : ∃ l, seqE a b = .ok l := by
  obtain ⟨la, ha⟩ := ha
  obtain ⟨lb, hb⟩ := hb
  exact ⟨la ++ lb, by simp [seqE, ha, hb]⟩

theorem validateRut_ok (d : Data) (h : strOk (pyGet d "rut")) :
    ∃ l, validateRut d = .ok l := by
  rcases h with h | ⟨s, h⟩ <;> rw [validateRut, h]
  · exact ⟨_, rfl⟩
  · by_cases ht : pyTruthy (Val.str s) = true
    · rw [if_neg (by simp [ht])]
      by_cases hm : rutPyMatch s = true
      · simp only [reMatch, hm]
        exact ⟨_, rfl⟩
      · rw [Bool.not_eq_true] at hm
        simp only [reMatch, hm]
        exact ⟨_, rfl⟩
    · rw [Bool.not_eq_true] at ht
      rw [if_pos (by simp [ht])]
      exact ⟨_, rfl⟩

theorem validateEmail_ok (d : Data) (h : strOk (pyGet d "email")) :
    ∃ l, validateEmail d = .ok l := by
  rcases h with h | ⟨s, h⟩ <;> rw [validateEmail, h]
  · exact ⟨_, rfl⟩
  · by_cases ht : pyTruthy (Val.str s) = true
    · rw [if_neg (by simp [ht])]
      by_cases hm : emailPyMatch s = true
      · simp only [reMatch, hm]
        exact ⟨_, rfl⟩
      · rw [Bool.not_eq_true] at hm
        simp only [reMatch, hm]
        exact ⟨_, rfl⟩
    · rw [Bool.not_eq_true] at ht
      rw [if_pos (by simp [ht])]
      exact ⟨_, rfl⟩

theorem validatePhone_ok (d : Data) (h : strOk (pyGet d "phone")) :
    ∃ l, validatePhone d = .ok l := by
  rcases h with h | ⟨s, h⟩ <;> rw [validatePhone, h]
  · exact ⟨_, rfl⟩
  · by_cases ht : pyTruthy (Val.str s) = true
    · rw [if_neg (by simp [ht])]
      by_cases hm : phonePyMatch s = true
      · simp only [reMatch, hm]
        exact ⟨_, rfl⟩
      · rw [Bool.not_eq_true] at hm
        simp only [reMatch, hm]
        exact ⟨_, rfl⟩
    · rw [Bool.not_eq_true] at ht
      rw [if_pos (by simp [ht])]
      exact ⟨_, rfl⟩

theorem checkName_ok (v : Val) (f req short : String) (h : strOk v) :
    ∃ l, (if !pyTruthy v then Except.ok [(⟨f, req⟩ : ValidationError)]
      else match pyLen v with
      | .error e => .error e
      | .ok n =>
          .ok (if n < 2 then [(⟨f, short⟩ : ValidationError)] else [])) = Except.ok l := by
  rcases h with h | ⟨s, h⟩ <;> subst h
  · exact ⟨_, rfl⟩
  · by_cases ht : pyTruthy (Val.str s) = true
    · rw [if_neg (by simp [ht])]
      simp only [pyLen]
      exact ⟨_, rfl⟩
    · rw [Bool.not_eq_true] at ht
      rw [if_pos (by simp [ht])]
      exact ⟨_, rfl⟩

theorem validateNombres_ok (d : Data) (h1 : strOk (pyGet d "first_name"))
    (h2 : strOk (pyGet d "last_name")) : ∃ l, validateNombres d = .ok l := by
  simp only [validateNombres]
  exact seqE_ok (checkName_ok _ _ _ _ h1) (checkName_ok _ _ _ _ h2)

theorem validatePassword_ok (d : Data) (h : strOk (pyGet d "password")) :
    ∃ l, validatePassword d = .ok l := by
  rcases h with h | ⟨s, h⟩ <;> rw [validatePassword, h]
  · exact ⟨_, rfl⟩
  · by_cases ht : pyTruthy (Val.str s) = true
    · rw [if_neg (by simp [ht])]
      simp only [pyLen]
      by_cases hn : s.length < 8
      · rw [if_pos hn]
        exact ⟨_, rfl⟩
      · rw [if_neg hn]
        exact ⟨_, rfl⟩
    · rw [Bool.not_eq_true] at ht
      rw [if_pos (by simp [ht])]
      exact ⟨_, rfl⟩

theorem validateRole_ok (d : Data) : ∃ l, validateRole d = .ok l := by
  rw [validateRole]
  by_cases h : (pyTruthy (pyGet d "role") &&
      !valInStrs (pyGet d "role") ["Administrador", "Cliente"]) = true
  · rw [if_pos h]
    exact ⟨_, rfl⟩
  · rw [if_neg h]
    exact ⟨_, rfl⟩

theorem usuarioCheck_ok (d : Data) (h1 : strOk (pyGet d "rut"))
    (h2 : strOk (pyGet d "email")) (h3 : strOk (pyGet d "first_name"))
    (h4 : strOk (pyGet d "last_name")) (h5 : strOk (pyGet d "password"))
    (h6 : strOk (pyGet d "phone")) : ∃ l, usuarioCheck d = .ok l := by
  rw [usuarioCheck]
  exact seqE_ok (validateRut_ok d h1) (seqE_ok (validateEmail_ok d h2)
    (seqE_ok (validateNombres_ok d h3 h4) (seqE_ok (validatePassword_ok d h5)
      (seqE_ok (validateRole_ok d) (validatePhone_ok d h6)))))

theorem checkRequiredLen_ok (v : Val) (f : String) (lo hi : Nat)
    (req tooShort tooLong : String) (h : strOk v) :
    ∃ l, checkRequiredLen v f lo hi req tooShort tooLong = .ok l := by
  rcases h with h | ⟨s, h⟩ <;> subst h
  · exact ⟨_, rfl⟩
  · by_cases ht : pyTruthy (Val.str s) = true
    · rw [checkRequiredLen, if_neg (by simp [ht])]
      simp only [pyLen]
      by_cases hn : s.length < lo
      · rw [if_pos hn]
        exact ⟨_, rfl⟩
      · rw [if_neg hn]
        by_cases hm : hi < s.length
        · rw [if_pos hm]
          exact ⟨_, rfl⟩
        · rw [if_neg hm]
          exact ⟨_, rfl⟩
    · rw [Bool.not_eq_true] at ht
      rw [checkRequiredLen, if_pos (by simp [ht])]
      exact ⟨_, rfl⟩

theorem validateFechas_ok (d : Data) (h1 : dateOk (pyGet d "fecha_inicio"))
    (h2 : dateOk (pyGet d "fecha_finalizacion")) : ∃ l, validateFechas d = .ok l := by
  rw [validateFechas]
  by_cases hc : (pyTruthy (pyGet d "fecha_inicio") &&
      pyTruthy (pyGet d "fecha_finalizacion")) = true
  · rw [if_pos hc]
    have hff : ∀ y1 m1 d1, ∃ l,
        (match resolveDate (pyGet d "fecha_finalizacion") with
         | Option.none =>
             Except.ok [(⟨"fecha_finalizacion", "Formato de fecha inválido"⟩ : ValidationError)]
         | Option.some ff' =>
             match pyGt (Val.date y1 m1 d1) ff' with
             | .error e => .error e
             | .ok b =>
                 .ok (if b then
                   [(⟨"fecha_finalizacion",
                     "La fecha de finalización debe ser posterior a la fecha de inicio"⟩ : ValidationError)]
                   else [])) = Except.ok l := by
      intro y1 m1 d1
      rcases h2 with h2 | ⟨t, h2⟩ | ⟨y2, m2, d2, h2⟩
      · rw [h2] at hc
        simp [pyTruthy] at hc
      · rw [h2]
        rcases hq : fromisoformat t with _ | ⟨y2, m2, d2⟩
        · simp only [resolveDate, hq]
          exact ⟨_, rfl⟩
        · simp only [resolveDate, hq, pyGt]
          exact ⟨_, rfl⟩
      · rw [h2]
        simp only [resolveDate, pyGt]
        exact ⟨_, rfl⟩
    rcases h1 with h1 | ⟨s, h1⟩ | ⟨y1, m1, d1, h1⟩
    · rw [h1] at hc
      simp [pyTruthy] at hc
    · rw [h1]
      rcases hp : fromisoformat s with _ | ⟨y1, m1, d1⟩
      · simp only [resolveDate, hp]
        exact ⟨_, rfl⟩
      · simp only [resolveDate, hp]
        exact hff y1 m1 d1
    · rw [h1]
      simp only [resolveDate]
      exact hff y1 m1 d1
  · rw [if_neg hc]
    exact ⟨_, rfl⟩

theorem validateEstadoProyecto_ok (d : Data) : ∃ l, validateEstadoProyecto d = .ok l := by
  rw [validateEstadoProyecto]
  by_cases h : (pyTruthy (pyGet d "estado") && !valInStrs (pyGet d "estado")
      ["Planificación", "En Construcción", "Terminado", "Cancelado"]) = true
  · rw [if_pos h]
    exact ⟨_, rfl⟩
  · rw [if_neg h]
    exact ⟨_, rfl⟩

theorem validateCodigo_ok (d : Data) (h : strOk (pyGet d "codigo")) :
    ∃ l, validateCodigo d = .ok l := by
  rcases h with h | ⟨s, h⟩ <;> rw [validateCodigo, h]
  · exact ⟨_, rfl⟩
  · by_cases ht : pyTruthy (Val.str s) = true
    · rw [if_neg (by simp [ht])]
      simp only [pyLen]
      by_cases hn : s.length < 5
      · rw [if_pos hn]
        exact ⟨_, rfl⟩
      · rw [if_neg hn]
        by_cases hm : 20 < s.length
        · rw [if_pos hm]
          exact ⟨_, rfl⟩
        · rw [if_neg hm]
          exact ⟨_, rfl⟩
    · rw [Bool.not_eq_true] at ht
      rw [if_pos (by simp [ht])]
      exact ⟨_, rfl⟩

theorem proyectoCheck_ok (d : Data) (h1 : strOk (pyGet d "nombre"))
    (h2 : strOk (pyGet d "ubicacion")) (h3 : dateOk (pyGet d "fecha_inicio"))
    (h4 : dateOk (pyGet d "fecha_finalizacion")) (h5 : strOk (pyGet d "codigo")) :
    ∃ l, proyectoCheck d = .ok l := by
  rw [proyectoCheck]
  exact seqE_ok (checkRequiredLen_ok _ _ _ _ _ _ _ h1)
    (seqE_ok (checkRequiredLen_ok _ _ _ _ _ _ _ h2)
      (seqE_ok (validateFechas_ok d h3 h4)
        (seqE_ok (validateEstadoProyecto_ok d) (validateCodigo_ok d h5))))

theorem validateProyectoRef_ok (d : Data) : ∃ l, validateProyectoRef d = .ok l := by
  rw [validateProyectoRef]
  by_cases h : (!pyTruthy (pyGet d "proyecto_id")) = true
  · rw [if_pos h]
    exact ⟨_, rfl⟩
  · rw [if_neg h]
    exact ⟨_, rfl⟩

theorem validateNumeroUnidad_ok (d : Data) (h : strOk (pyGet d "numero_unidad")) :
    ∃ l, validateNumeroUnidad d = .ok l := by
  rcases h with h | ⟨s, h⟩ <;> rw [validateNumeroUnidad, h]
  · exact ⟨_, rfl⟩
  · by_cases ht : pyTruthy (Val.str s) = true
    · rw [if_neg (by simp [ht])]
      simp only [pyLen]
      exact ⟨_, rfl⟩
    · rw [Bool.not_eq_true] at ht
      rw [if_pos (by simp [ht])]
      exact ⟨_, rfl⟩

theorem validateTipoUnidad_ok (d : Data) : ∃ l, validateTipoUnidad d = .ok l := by
  rw [validateTipoUnidad]
  by_cases h1 : (!pyTruthy (pyGet d "tipo_unidad")) = true
  · rw [if_pos h1]
    exact ⟨_, rfl⟩
  · rw [if_neg h1]
    by_cases h2 : (!valInStrs (pyGet d "tipo_unidad") ["Departamento", "Casa", "Oficina",
        "Local Comercial", "Terreno", "Bodega", "Estacionamiento"]) = true
    · rw [if_pos h2]
      exact ⟨_, rfl⟩
    · rw [if_neg h2]
      exact ⟨_, rfl⟩

theorem checkPositive_ok (v : Val) (f req nonPos : String) (h : numOk v) :
    ∃ l, checkPositive v f req nonPos = .ok l := by
  rcases h with h | ⟨n, h⟩ <;> subst h
  · exact ⟨_, rfl⟩
  · rw [checkPositive]
    rw [if_neg (by simp)]
    simp only [pyLeZero]
    exact ⟨_, rfl⟩

theorem validateEstadoUnidad_ok (d : Data) : ∃ l, validateEstadoUnidad d = .ok l := by
  rw [validateEstadoUnidad]
  by_cases h1 : (!pyTruthy (pyGet d "estado")) = true
  · rw [if_pos h1]
    exact ⟨_, rfl⟩
  · rw [if_neg h1]
    by_cases h2 : (!valInStrs (pyGet d "estado")
        ["Disponible", "Reservado", "Vendido", "No Disponible"]) = true
    · rw [if_pos h2]
      exact ⟨_, rfl⟩
    · rw [if_neg h2]
      exact ⟨_, rfl⟩

theorem unidadCheck_ok (d : Data) (h1 : strOk (pyGet d "numero_unidad"))
    (h2 : numOk (pyGet d "metraje_cuadrado")) (h3 : numOk (pyGet d "precio_venta")) :
    ∃ l, unidadCheck d = .ok l := by
  rw [unidadCheck]
  exact seqE_ok (validateProyectoRef_ok d) (seqE_ok (validateNumeroUnidad_ok d h1)
    (seqE_ok (validateTipoUnidad_ok d) (seqE_ok (checkPositive_ok _ _ _ _ h2)
      (seqE_ok (checkPositive_ok _ _ _ _ h3) (validateEstadoUnidad_ok d)))))

theorem isValidE_ok_of_check (check : Data → Except String (List ValidationError))
    (d : Data) (errs0 : List ValidationError) (h : ∃ l, check d = .ok l) :
    ∃ r, isValidE check ⟨d, errs0⟩ = .ok r := by
  obtain ⟨l, h⟩ := h
  exact ⟨(l.isEmpty, ⟨d, l⟩), by simp [isValidE, h]⟩

/-- C5 counterexample: on the input mapping `{'first_name': 5}` (an
integer where a string is expected) the user validator's `is_valid`
does not return — `len(5)` raises a `TypeError` that propagates — so
validation is not exception-free for arbitrary value types. -/
theorem validator_raises_counterexample :
    isValidE usuarioCheck ⟨[("first_name", Val.int 5)], []⟩ =
      .error "TypeError: object has no len" := by
  rfl

/-- C5 (amended): `is_valid` never raises on inputs whose present
values have the field's expected type — strings for the string-checked
fields, numbers for `metraje_cuadrado`/`precio_venta`, strings or
native dates for the two date fields; every failure on such inputs is
recorded in the error list. -/
theorem validators_no_raise_spec :
    (∀ d : Data, strOk (pyGet d "rut") → strOk (pyGet d "email") →
      strOk (pyGet d "first_name") → strOk (pyGet d "last_name") →
      strOk (pyGet d "password") → strOk (pyGet d "phone") →
      ∃ r, isValidE usuarioCheck ⟨d, []⟩ = .ok r) ∧
    (∀ d : Data, strOk (pyGet d "nombre") → strOk (pyGet d "ubicacion") →
      dateOk (pyGet d "fecha_inicio") → dateOk (pyGet d "fecha_finalizacion") →
      strOk (pyGet d "codigo") →
      ∃ r, isValidE proyectoCheck ⟨d, []⟩ = .ok r) ∧
    (∀ d : Data, strOk (pyGet d "numero_unidad") → numOk (pyGet d "metraje_cuadrado") →
      numOk (pyGet d "precio_venta") →
      ∃ r, isValidE unidadCheck ⟨d, []⟩ = .ok r) := by
  refine ⟨?_, ?_, ?_⟩
  · intro d h1 h2 h3 h4 h5 h6
    exact isValidE_ok_of_check usuarioCheck d [] (usuarioCheck_ok d h1 h2 h3 h4 h5 h6)
  · intro d h1 h2 h3 h4 h5
    exact isValidE_ok_of_check proyectoCheck d [] (proyectoCheck_ok d h1 h2 h3 h4 h5)
  · intro d h1 h2 h3
    exact isValidE_ok_of_check unidadCheck d [] (unidadCheck_ok d h1 h2 h3)

/-- Witness for the amended C5 on concrete well-typed inputs of all
three validators. -/
theorem validators_no_raise_spec_witness :
    (∃ r, isValidE usuarioCheck
      ⟨[("rut", Val.str "12345678-9"), ("email", Val.str "a@b.cd")], []⟩ = .ok r) ∧
    (∃ r, isValidE proyectoCheck
      ⟨[("fecha_inicio", Val.str "2024-01-01"), ("fecha_finalizacion", Val.date 2024 5 1)],
        []⟩ = .ok r) ∧
    (∃ r, isValidE unidadCheck
      ⟨[("metraje_cuadrado", Val.int 80), ("precio_venta", Val.int 0)], []⟩ = .ok r) := by
  refine ⟨?_, ?_, ?_⟩
  · exact validators_no_raise_spec.1 _ (Or.inr ⟨_, rfl⟩) (Or.inr ⟨_, rfl⟩)
      (Or.inl rfl) (Or.inl rfl) (Or.inl rfl) (Or.inl rfl)
  · exact validators_no_raise_spec.2.1 _ (Or.inl rfl) (Or.inl rfl)
      (Or.inr (Or.inl ⟨_, rfl⟩)) (Or.inr (Or.inr ⟨_, _, _, rfl⟩)) (Or.inl rfl)
  · exact validators_no_raise_spec.2.2 _ (Or.inl rfl)
      (Or.inr ⟨_, rfl⟩) (Or.inr ⟨_, rfl⟩)

theorem foldl_min_spec (xs : List ℚ) : ∀ x : ℚ,
    (xs.foldl min x = x ∨ xs.foldl min x ∈ xs) ∧
    xs.foldl min x ≤ x ∧ ∀ p ∈ xs, xs.foldl min x ≤ p := by
  induction xs with
  | nil =>
      intro x
      exact ⟨Or.inl rfl, le_refl x, by simp⟩
  | cons y ys ih =>
      intro x
      obtain ⟨hmem, hlex, hall⟩ := ih (min x y)
      refine ⟨?_, ?_, ?_⟩
      · rcases hmem with h | h
        · rcases min_choice x y with hc | hc
          · left
            rw [List.foldl_cons, h, hc]
          · right
            rw [List.foldl_cons, h, hc]
            exact List.mem_cons_self y ys
        · right
          rw [List.foldl_cons]
          exact List.mem_cons_of_mem y h
      · rw [List.foldl_cons]
        exact le_trans hlex (min_le_left x y)
      · intro p hp
        rw [List.foldl_cons]
        rcases List.mem_cons.mp hp with h | h
        · subst h
          exact le_trans hlex (min_le_right x p)
        · exact hall p h

theorem foldl_max_spec (xs : List ℚ) : ∀ x : ℚ,
    (xs.foldl max x = x ∨ xs.foldl max x ∈ xs) ∧
    x ≤ xs.foldl max x ∧ ∀ p ∈ xs, p ≤ xs.foldl max x := by
  induction xs with
  | nil =>
      intro x
      exact ⟨Or.inl rfl, le_refl x, by simp⟩
  | cons y ys ih =>
      intro x
      obtain ⟨hmem, hlex, hall⟩ := ih (max x y)
      refine ⟨?_, ?_, ?_⟩
      · rcases hmem with h | h
        · rcases max_choice x y with hc | hc
          · left
            rw [List.foldl_cons, h, hc]
          · right
            rw [List.foldl_cons, h, hc]
            exact List.mem_cons_self y ys
        · right
          rw [List.foldl_cons]
          exact List.mem_cons_of_mem y h
      · rw [List.foldl_cons]
        exact le_trans (le_max_left x y) hlex
      · intro p hp
        rw [List.foldl_cons]
        rcases List.mem_cons.mp hp with h | h
        · subst h
          exact le_trans (le_max_right x p) hlex
        · exact hall p h

theorem aggMin_spec (l : List ℚ) (h : l ≠ []) :
    ∃ q, aggMin l = Option.some q ∧ q ∈ l ∧ ∀ p ∈ l, q ≤ p := by
  cases l with
  | nil => exact absurd rfl h
  | cons x xs =>
      obtain ⟨hmem, hle, hall⟩ := foldl_min_spec xs x
      refine ⟨xs.foldl min x, rfl, ?_, ?_⟩
      · rcases hmem with h | h
        · rw [h]
          exact List.mem_cons_self x xs
        · exact List.mem_cons_of_mem x h
      · intro p hp
        rcases List.mem_cons.mp hp with h | h
        · subst h
          exact hle
        · exact hall p h

theorem aggMax_spec (l : List ℚ) (h : l ≠ []) :
    ∃ q, aggMax l = Option.some q ∧ q ∈ l ∧ ∀ p ∈ l, p ≤ q := by
  cases l with
  | nil => exact absurd rfl h
  | cons x xs =>
      obtain ⟨hmem, hle, hall⟩ := foldl_max_spec xs x
      refine ⟨xs.foldl max x, rfl, ?_, ?_⟩
      · rcases hmem with h | h
        · rw [h]
          exact List.mem_cons_self x xs
        · exact List.mem_cons_of_mem x h
      · intro p hp
        rcases List.mem_cons.mp hp with h | h
        · subst h
          exact hle
        · exact hall p h

/-- C6: per-project unit statistics return the scoped unit count, mean
and extrema of the sale prices (`NULL` aggregates, zero count and empty
groupings on an empty project, with no division), and the groupings
count units by state and by type. -/
theorem unit_statistics_spec (st : Store) (pid : Nat) :
    (get_estadisticas_por_proyecto st pid).total_unidades =
      (st.filter (fun u => u.proyecto_id == pid)).length ∧
    (st.filter (fun u => u.proyecto_id == pid) = [] →
      get_estadisticas_por_proyecto st pid =
        ⟨Option.none, Option.none, Option.none, 0, [], []⟩) ∧
    (st.filter (fun u => u.proyecto_id == pid) ≠ [] →
      (get_estadisticas_por_proyecto st pid).precio_promedio =
        Option.some
          (((st.filter (fun u => u.proyecto_id == pid)).map (fun u => u.precio_venta)).sum /
            ((st.filter (fun u => u.proyecto_id == pid)).length : ℚ)) ∧
      (∃ q, (get_estadisticas_por_proyecto st pid).precio_minimo = Option.some q ∧
        q ∈ (st.filter (fun u => u.proyecto_id == pid)).map (fun u => u.precio_venta) ∧
        ∀ p ∈ (st.filter (fun u => u.proyecto_id == pid)).map (fun u => u.precio_venta),
          q ≤ p) ∧
      (∃ q, (get_estadisticas_por_proyecto st pid).precio_maximo = Option.some q ∧
        q ∈ (st.filter (fun u => u.proyecto_id == pid)).map (fun u => u.precio_venta) ∧
        ∀ p ∈ (st.filter (fun u => u.proyecto_id == pid)).map (fun u => u.precio_venta),
          p ≤ q)) ∧
    (∀ s, List.lookup s (get_estadisticas_por_proyecto st pid).unidades_por_estado =
      if countKey (fun u => u.estado) s (st.filter (fun u => u.proyecto_id == pid)) = 0
      then Option.none
      else Option.some
        (countKey (fun u => u.estado) s (st.filter (fun u => u.proyecto_id == pid)))) ∧
    (∀ s, List.lookup s (get_estadisticas_por_proyecto st pid).unidades_por_tipo =
      if countKey (fun u => u.tipo_unidad) s (st.filter (fun u => u.proyecto_id == pid)) = 0
      then Option.none
      else Option.some
        (countKey (fun u => u.tipo_unidad) s (st.filter (fun u => u.proyecto_id == pid)))) ∧
    get_estadisticas_por_proyecto [⟨1, pid, "Casa", "Disponible", Option.none, 5000⟩] pid =
      ⟨Option.some 5000, Option.some 5000, Option.some 5000, 1,
        [("Disponible", 1)], [("Casa", 1)]⟩ := by
  refine ⟨rfl, ?_, ?_, ?_, ?_, ?_⟩
  · intro h
    simp [get_estadisticas_por_proyecto, h, aggAvg, aggMin, aggMax, countBy]
  · intro h
    have hm : (st.filter (fun u => u.proyecto_id == pid)).map (fun u => u.precio_venta) ≠ [] := by
      simp [h]
    refine ⟨?_, ?_, ?_⟩
    · show aggAvg ((st.filter (fun u => u.proyecto_id == pid)).map (fun u => u.precio_venta)) = _
      rw [aggAvg, if_neg (by simp [h])]
      simp [List.length_map]
    · obtain ⟨q, hq, hmem, hall⟩ := aggMin_spec _ hm
      exact ⟨q, hq, hmem, hall⟩
    · obtain ⟨q, hq, hmem, hall⟩ := aggMax_spec _ hm
      exact ⟨q, hq, hmem, hall⟩
  · intro s
    exact lookup_countBy _ _ s
  · intro s
    exact lookup_countBy _ _ s
  · simp [get_estadisticas_por_proyecto, aggAvg, aggMin, aggMax, countBy, bumpDict]

/-- Witness for C6 at a concrete store: the one-unit project priced at
5000 and the empty project. -/
theorem unit_statistics_spec_witness :
    get_estadisticas_por_proyecto [⟨1, 3, "Casa", "Disponible", Option.none, 5000⟩] 3 =
      ⟨Option.some 5000, Option.some 5000, Option.some 5000, 1,
        [("Disponible", 1)], [("Casa", 1)]⟩ ∧
    get_estadisticas_por_proyecto ([] : Store) 3 =
      ⟨Option.none, Option.none, Option.none, 0, [], []⟩ := by
  constructor
  · exact (unit_statistics_spec [⟨1, 3, "Casa", "Disponible", Option.none, 5000⟩] 3).2.2.2.2.2
  · exact (unit_statistics_spec ([] : Store) 3).2.1 rfl

theorem seqE_ok_inv {a b : Except String (List ValidationError)} {l : List ValidationError}
    (h : seqE a b = .ok l) : ∃ la lb, a = .ok la ∧ b = .ok lb ∧ l = la ++ lb := by
  rcases ha : a with e | la
  · rw [seqE.eq_def, ha] at h
    simp at h
  · rcases hb : b with e | lb
    · rw [seqE.eq_def, ha, hb] at h
      simp at h
    · rw [seqE.eq_def, ha, hb] at h
      simp at h
      exact ⟨la, lb, rfl, rfl, h.symm⟩

theorem fields_of_singleton {f m : String} {l : List ValidationError}
    (h : ([(⟨f, m⟩ : ValidationError)] : List ValidationError) = l) :
    ∀ e ∈ l, e.field = f := by
  subst h
  intro e he
  rcases List.mem_singleton.mp he with rfl
  rfl

theorem forall_mem_of_nil {C : ValidationError → Prop} {l : List ValidationError}
    (h : ([] : List ValidationError) = l) : ∀ e ∈ l, C e := by
  subst h
  intro e he
  simp at he

theorem checkRequiredLen_fields (v : Val) (f : String) (lo hi : Nat)
    (req tooShort tooLong : String) (l : List ValidationError)
    (h : checkRequiredLen v f lo hi req tooShort tooLong = .ok l) :
    ∀ e ∈ l, e.field = f := by
  rw [checkRequiredLen] at h
  split at h
  · exact fields_of_singleton (Except.ok.inj h)
  · split at h
    · cases h
    · split at h
      · exact fields_of_singleton (Except.ok.inj h)
      · split at h
        · exact fields_of_singleton (Except.ok.inj h)
        · exact forall_mem_of_nil (Except.ok.inj h)

theorem validateEstadoProyecto_fields (d : Data) (l : List ValidationError)
    (h : validateEstadoProyecto d = .ok l) : ∀ e ∈ l, e.field = "estado" := by
  rw [validateEstadoProyecto] at h
  split at h
  · exact fields_of_singleton (Except.ok.inj h)
  · exact forall_mem_of_nil (Except.ok.inj h)

theorem validateCodigo_fields (d : Data) (l : List ValidationError)
    (h : validateCodigo d = .ok l) : ∀ e ∈ l, e.field = "codigo" := by
  rw [validateCodigo] at h
  split at h
  · exact forall_mem_of_nil (Except.ok.inj h)
  · split at h
    · cases h
    · split at h
      · exact fields_of_singleton (Except.ok.inj h)
      · split at h
        · exact fields_of_singleton (Except.ok.inj h)
        · exact forall_mem_of_nil (Except.ok.inj h)

theorem validateFechas_both_resolved (d : Data) (v w : Val)
    (y1 m1 d1 y2 m2 d2 : Nat)
    (hv : pyGet d "fecha_inicio" = v) (htv : pyTruthy v = true)
    (hw : pyGet d "fecha_finalizacion" = w) (htw : pyTruthy w = true)
    (hrv : resolveDate v = Option.some (Val.date y1 m1 d1))
    (hrw : resolveDate w = Option.some (Val.date y2 m2 d2)) :
    validateFechas d = .ok (if dateLt (y2, m2, d2) (y1, m1, d1) then
      [⟨"fecha_finalizacion",
        "La fecha de finalización debe ser posterior a la fecha de inicio"⟩]
      else []) := by
  rw [validateFechas, hv, hw, if_pos (by rw [htv, htw]; rfl), hrv, hrw]
  rfl

/-- C7: with both project dates present, an unparsable start date
string records a `fecha_inicio` format error; a parsed start with an
unparsable completion string records a `fecha_finalizacion` format
error; when both resolve to dates the validator records a
`fecha_finalizacion` error exactly when start > completion (equal dates
pass); concretely, 2024-01-01/2023-12-31 fails with a
`fecha_finalizacion` error and swapping the dates validates. -/
theorem proyecto_fechas_spec :
    (∀ (d : Data) (s : String), pyGet d "fecha_inicio" = Val.str s → s ≠ "" →
      pyTruthy (pyGet d "fecha_finalizacion") = true → fromisoformat s = Option.none →
      validateFechas d = .ok [⟨"fecha_inicio", "Formato de fecha inválido"⟩]) ∧
    (∀ (d : Data) (v : Val) (t : String) (y1 m1 d1 : Nat),
      pyGet d "fecha_inicio" = v → pyTruthy v = true →
      resolveDate v = Option.some (Val.date y1 m1 d1) →
      pyGet d "fecha_finalizacion" = Val.str t → t ≠ "" → fromisoformat t = Option.none →
      validateFechas d = .ok [⟨"fecha_finalizacion", "Formato de fecha inválido"⟩]) ∧
    (∀ (d : Data) (v w : Val) (y1 m1 d1 y2 m2 d2 : Nat),
      pyGet d "fecha_inicio" = v → pyTruthy v = true →
      pyGet d "fecha_finalizacion" = w → pyTruthy w = true →
      resolveDate v = Option.some (Val.date y1 m1 d1) →
      resolveDate w = Option.some (Val.date y2 m2 d2) →
      validateFechas d = .ok (if dateLt (y2, m2, d2) (y1, m1, d1) then
        [⟨"fecha_finalizacion",
          "La fecha de finalización debe ser posterior a la fecha de inicio"⟩]
        else [])) ∧
    (∀ (d : Data) (l : List ValidationError) (v w : Val) (y1 m1 d1 y2 m2 d2 : Nat),
      proyectoCheck d = .ok l →
      pyGet d "fecha_inicio" = v → pyTruthy v = true →
      pyGet d "fecha_finalizacion" = w → pyTruthy w = true →
      resolveDate v = Option.some (Val.date y1 m1 d1) →
      resolveDate w = Option.some (Val.date y2 m2 d2) →
      ((∃ e ∈ l, e.field = "fecha_finalizacion") ↔
        dateLt (y2, m2, d2) (y1, m1, d1) = true)) ∧
    proyectoCheck
        [("nombre", Val.str "Condominio Sur"), ("ubicacion", Val.str "Av. Central 123"),
          ("fecha_inicio", Val.str "2024-01-01"), ("fecha_finalizacion", Val.str "2023-12-31")] =
      .ok [⟨"fecha_finalizacion",
        "La fecha de finalización debe ser posterior a la fecha de inicio"⟩] ∧
    isValidE proyectoCheck
        ⟨[("nombre", Val.str "Condominio Sur"), ("ubicacion", Val.str "Av. Central 123"),
          ("fecha_inicio", Val.str "2023-12-31"), ("fecha_finalizacion", Val.str "2024-01-01")],
          []⟩ =
      .ok (true,
        ⟨[("nombre", Val.str "Condominio Sur"), ("ubicacion", Val.str "Av. Central 123"),
          ("fecha_inicio", Val.str "2023-12-31"), ("fecha_finalizacion", Val.str "2024-01-01")],
          []⟩) := by
  refine ⟨?_, ?_, ?_, ?_, ?_, ?_⟩
  · intro d s hv hs htf hp
    have ht1 : pyTruthy (Val.str s) = true := by
      simp [pyTruthy, Bool.eq_false_iff, String.isEmpty_iff, hs]
    rw [validateFechas, hv, if_pos (by rw [ht1, htf]; rfl)]
    simp only [resolveDate, hp]
  · intro d v t y1 m1 d1 hv htv hrv hw ht hq
    have ht2 : pyTruthy (Val.str t) = true := by
      simp [pyTruthy, Bool.eq_false_iff, String.isEmpty_iff, ht]
    rw [validateFechas, hv, hw, if_pos (by rw [htv, ht2]; rfl), hrv]
    simp only [resolveDate, hq]
  · intro d v w y1 m1 d1 y2 m2 d2 hv htv hw htw hrv hrw
    exact validateFechas_both_resolved d v w y1 m1 d1 y2 m2 d2 hv htv hw htw hrv hrw
  · intro d l v w y1 m1 d1 y2 m2 d2 hpc hv htv hw htw hrv hrw
    rw [proyectoCheck] at hpc
    obtain ⟨l1, r1, h1, hr1, hl⟩ := seqE_ok_inv hpc
    obtain ⟨l2, r2, h2, hr2, hl2⟩ := seqE_ok_inv hr1
    obtain ⟨l3, r3, h3, hr3, hl3⟩ := seqE_ok_inv hr2
    obtain ⟨l4, l5, h4, h5, hl4⟩ := seqE_ok_inv hr3
    have h3' := validateFechas_both_resolved d v w y1 m1 d1 y2 m2 d2 hv htv hw htw hrv hrw
    rw [h3] at h3'
    have hl3' := Except.ok.inj h3'
    constructor
    · rintro ⟨e, he, hef⟩
      rw [hl, hl2, hl3, hl4] at he
      simp only [List.mem_append] at he
      rcases he with h | h | h | h | h
      · have := checkRequiredLen_fields _ _ _ _ _ _ _ l1 h1 e h
        rw [hef] at this
        exact absurd this (by decide)
      · have := checkRequiredLen_fields _ _ _ _ _ _ _ l2 h2 e h
        rw [hef] at this
        exact absurd this (by decide)
      · by_cases hb : dateLt (y2, m2, d2) (y1, m1, d1) = true
        · exact hb
        · rw [Bool.not_eq_true] at hb
          rw [hl3', hb] at h
          simp at h
      · have := validateEstadoProyecto_fields d l4 h4 e h
        rw [hef] at this
        exact absurd this (by decide)
      · have := validateCodigo_fields d l5 h5 e h
        rw [hef] at this
        exact absurd this (by decide)
    · intro hb
      refine ⟨⟨"fecha_finalizacion",
        "La fecha de finalización debe ser posterior a la fecha de inicio"⟩, ?_, rfl⟩
      rw [hl, hl2, hl3, hl4, hl3', hb]
      simp
  · rfl
  · rfl

/-- Witness for C7: the concrete 2024-01-01 / 2023-12-31 project input
exercises every hypothesis of the date rules. -/
theorem proyecto_fechas_spec_witness :
    validateFechas [("fecha_inicio", Val.str "garbage"),
        ("fecha_finalizacion", Val.str "2024-01-01")] =
      .ok [⟨"fecha_inicio", "Formato de fecha inválido"⟩] ∧
    validateFechas [("fecha_inicio", Val.str "2024-01-01"),
        ("fecha_finalizacion", Val.str "garbage")] =
      .ok [⟨"fecha_finalizacion", "Formato de fecha inválido"⟩] ∧
    validateFechas [("fecha_inicio", Val.str "2024-01-01"),
        ("fecha_finalizacion", Val.str "2023-12-31")] =
      .ok [⟨"fecha_finalizacion",
        "La fecha de finalización debe ser posterior a la fecha de inicio"⟩] ∧
    ((∃ e ∈ [(⟨"fecha_finalizacion",
        "La fecha de finalización debe ser posterior a la fecha de inicio"⟩ : ValidationError)],
      e.field = "fecha_finalizacion") ↔
        dateLt (2023, 12, 31) (2024, 1, 1) = true) := by
  refine ⟨?_, ?_, ?_, ?_⟩
  · exact proyecto_fechas_spec.1
      [("fecha_inicio", Val.str "garbage"), ("fecha_finalizacion", Val.str "2024-01-01")]
      "garbage" rfl (by decide) rfl rfl
  · exact proyecto_fechas_spec.2.1
      [("fecha_inicio", Val.str "2024-01-01"), ("fecha_finalizacion", Val.str "garbage")]
      (Val.str "2024-01-01") "garbage" 2024 1 1 rfl rfl rfl rfl (by decide) rfl
  · have h := proyecto_fechas_spec.2.2.1
      [("fecha_inicio", Val.str "2024-01-01"), ("fecha_finalizacion", Val.str "2023-12-31")]
      (Val.str "2024-01-01") (Val.str "2023-12-31")
      2024 1 1 2023 12 31 rfl rfl rfl rfl rfl rfl
    simpa using h
  · exact proyecto_fechas_spec.2.2.2.1
      [("nombre", Val.str "Condominio Sur"), ("ubicacion", Val.str "Av. Central 123"),
        ("fecha_inicio", Val.str "2024-01-01"), ("fecha_finalizacion", Val.str "2023-12-31")]
      [⟨"fecha_finalizacion",
        "La fecha de finalización debe ser posterior a la fecha de inicio"⟩]
      (Val.str "2024-01-01") (Val.str "2023-12-31") 2024 1 1 2023 12 31
      proyecto_fechas_spec.2.2.2.2.1 rfl rfl rfl rfl rfl rfl

/-- C8 counterexample: `"12345678-9\n"` does not match the RUT pattern
anchored at both ends, yet the validator records no `rut` error for it,
because Python's `$` also matches before a single trailing newline. -/
theorem rut_anchored_counterexample :
    rutAnchoredMatch "12345678-9\n" = false ∧
    validateRut [("rut", Val.str "12345678-9\n")] = .ok [] := by
  constructor
  · rfl
  · rfl

/-- C8 (amended): a missing (or empty, hence falsy) RUT records the
required error; a nonempty RUT string records a format error exactly
when it fails `re.match(r'^\d{1,8}-[\dkK]$', ·)`, whose acceptance is
the anchored pattern plus, per Python `$` semantics, the same pattern
followed by one trailing newline; `"12345678-9"` is accepted and
`"123456789"` rejected. -/
theorem rut_format_spec :
    (∀ d : Data, pyGet d "rut" = Val.none ∨ pyGet d "rut" = Val.str "" →
      validateRut d = .ok [⟨"rut", "El RUT es obligatorio"⟩]) ∧
    (∀ (d : Data) (s : String), pyGet d "rut" = Val.str s → s ≠ "" →
      validateRut d = .ok (if rutPyMatch s then []
        else [⟨"rut", "El formato del RUT no es válido (debe ser 12345678-9)"⟩])) ∧
    (∀ s : String, rutPyMatch s = (rutAnchoredMatch s ||
      ((s.toList.getLast? == Option.some '\n') &&
        rutAnchoredMatch (String.mk s.toList.dropLast)))) ∧
    rutPyMatch "12345678-9" = true ∧
    rutPyMatch "123456789" = false := by
  refine ⟨?_, ?_, ?_, ?_, ?_⟩
  · intro d h
    rcases h with h | h <;> rw [validateRut, h] <;> rfl
  · intro d s hv hs
    have ht : pyTruthy (Val.str s) = true := by
      simp [pyTruthy, Bool.eq_false_iff, String.isEmpty_iff, hs]
    rw [validateRut, hv, if_neg (by simp [ht])]
    by_cases hm : rutPyMatch s = true
    · simp [reMatch, hm]
    · rw [Bool.not_eq_true] at hm
      simp [reMatch, hm]
  · intro s
    rfl
  · rfl
  · rfl

/-- Witness for the amended C8: the required error on a missing RUT and
the format rule on the two reference strings. -/
theorem rut_format_spec_witness :
    validateRut [("rut", Val.none)] = .ok [⟨"rut", "El RUT es obligatorio"⟩] ∧
    validateRut [("rut", Val.str "12345678-9")] =
      .ok (if rutPyMatch "12345678-9" then []
        else [⟨"rut", "El formato del RUT no es válido (debe ser 12345678-9)"⟩]) ∧
    validateRut [("rut", Val.str "123456789")] =
      .ok (if rutPyMatch "123456789" then []
        else [⟨"rut", "El formato del RUT no es válido (debe ser 12345678-9)"⟩]) := by
  refine ⟨?_, ?_, ?_⟩
  · exact rut_format_spec.1 [("rut", Val.none)] (Or.inl rfl)
  · exact rut_format_spec.2.1 [("rut", Val.str "12345678-9")] "12345678-9" rfl (by decide)
  · exact rut_format_spec.2.1 [("rut", Val.str "123456789")] "123456789" rfl (by decide)

end PlanOK
